import Mathlib

/-!
Verification development for the patient-mock-api repository: a mock
Express/SQLite "Patient Management" REST server.  The repository ships
several successive revisions of `index.js`; the definitions below are a
shallow embedding of the revisions cited by the specification:

* `src/index.js` (second revision, `/api/v1` base): `requireJson` (first
  revision, with the `/api/apic/` bypass), the list handler
  `GET /api/v1/patients`, the search handler `GET /api/v1/patients/search`,
  `POST`/`PUT`/`PATCH /api/v1/patients/:id`, and `rowToPatientSearch`.
* `src/unnamed/part_001` (second revision): `rowToPatientLegacy`,
  `rowToPatientListItem`, and the `POST /api/v1/patients` create handler
  with its payer-to-insurance conversion.

Modelling conventions:
* SQLite rows are the structure `Row`; JSON TEXT columns written by the
  handlers always hold `JSON.stringify` output of plain objects and are
  read back with `JSON.parse`/`safeParse`, which is the identity on that
  fragment, so those columns are modelled structurally (e.g.
  `Option Insurance`) rather than as raw text.
* JavaScript `undefined`/`null` and absent object fields are `none`;
  JS truthiness of strings (`""` falsy) is `jsTruthyS`; `a || b` on
  strings is `jsOrStr`/`jsOrOpt`.
* Query-parameter numbers are `Option (Option Int)`: the outer layer is
  "parameter present", the inner layer is `Number(...)` (`none` = NaN).
* The wall clock (`new Date().toISOString()`) and the UUID generator are
  external inputs, passed as explicit `now`/`freshId` arguments.
* String primitives used by the JS/SQL code (`toLowerCase`, `trim`,
  `split('-')`, `includes`, `LIKE '%q%'`) are re-implemented on `List Char`
  so that every definition is kernel-reducible.
-/

namespace PatientApi

/-! ### JavaScript value helpers -/

/-- JS truthiness of an optional string: `undefined`/`null` and `""` are falsy. -/
def jsTruthyS : Option String → Bool
  | none => false
  | some s => !(s == "")

/-- JS `a || b` where `a` is an optional string and `b` a string. -/
def jsOrStr (a : Option String) (b : String) : String :=
  match a with
  | some s => if s == "" then b else s
  | none => b

/-- JS `a || b` where both sides are optional strings. -/
def jsOrOpt (a b : Option String) : Option String :=
  match a with
  | some s => if s == "" then b else some s
  | none => b

/-- JS `a || null` / `a || undefined`: collapses the falsy `""` to `none`. -/
def jsOrNone (a : Option String) : Option String :=
  jsOrOpt a none

/-- JS template-literal rendering of a possibly-undefined string (`${x}`). -/
def jsStrU (a : Option String) : String :=
  a.getD "undefined"

/-- JS template-literal rendering of a possibly-null string (`${x}`). -/
def jsStrN (a : Option String) : String :=
  a.getD "null"

/-- `Number(q.param) || d` followed by nothing: absent / NaN / `0` give `d`. -/
def jsNumOrD (q : Option (Option Int)) (d : Int) : Int :=
  match q with
  | some (some v) => if v = 0 then d else v
  | _ => d

/-! ### Character-list string primitives (ASCII, kernel-reducible) -/

/-- ASCII `toLowerCase` (both JS and SQLite `LOWER` are ASCII-only here). -/
def lowerStr (s : String) : String :=
  String.mk (s.data.map Char.toLower)

/-- ASCII `toUpperCase`. -/
def upperStr (s : String) : String :=
  String.mk (s.data.map Char.toUpper)

/-- JS `String.prototype.trim()`. -/
def trimStr (s : String) : String :=
  String.mk (((s.data.dropWhile Char.isWhitespace).reverse.dropWhile Char.isWhitespace).reverse)

/-- Split a character list at every occurrence of `c` (JS `split(c)` semantics). -/
def charSplit (c : Char) : List Char → List (List Char)
  | [] => [[]]
  | x :: xs =>
    if x = c then [] :: charSplit c xs
    else
      match charSplit c xs with
      | [] => [[x]]
      | h :: t => (x :: h) :: t

/-- JS `s.split('-')`. -/
def splitDashStr (s : String) : List String :=
  (charSplit '-' s.data).map String.mk

/-- JS `s.includes('-')`. -/
def hasDashStr (s : String) : Bool :=
  s.data.contains '-'

/-- Does `hay` start with `needle` (over raw character lists)? -/
def seqStarts [DecidableEq α] : List α → List α → Bool
  | [], _ => true
  | _ :: _, [] => false
  | x :: xs, y :: ys => x = y && seqStarts xs ys

/-- Does `hay` contain `needle` as a contiguous subsequence? -/
def hasSubSeq [DecidableEq α] (needle : List α) : List α → Bool
  | [] => needle.isEmpty
  | y :: ys => seqStarts needle (y :: ys) || hasSubSeq needle ys

/-- JS `path.startsWith(p)`. -/
def startsWithStr (s p : String) : Bool :=
  seqStarts p.data s.data

/-- SQL `col LIKE '%' || needle || '%'` on lower-cased text. -/
def strContainsSub (hay needle : String) : Bool :=
  hasSubSeq needle.data hay.data

/-- Lexicographic `≤` on character lists (SQLite TEXT collation BINARY). -/
def charListLe : List Char → List Char → Bool
  | [], _ => true
  | _ :: _, [] => false
  | x :: xs, y :: ys =>
    if x = y then charListLe xs ys else decide (x.toNat < y.toNat)

/-- SQLite ordering on a nullable TEXT column: `NULL` sorts first ascending. -/
def optStrLeB : Option String → Option String → Bool
  | none, _ => true
  | some _, none => false
  | some a, some b => charListLe a.data b.data

/-- The regex `/^\S+@\S+\.\S+$/` used for email validation: the whole string
is whitespace-free and splits as `local@mid.rest` with all three parts
non-empty (the regex' `\S` also matches `@` and `.`, hence the ∃ search). -/
def emailRegexOk (s : String) : Bool :=
  let cs := s.data
  cs.all (fun c => !c.isWhitespace) &&
    (List.range cs.length).any (fun i =>
      (cs[i]? == some '@') && 1 ≤ i &&
        (List.range cs.length).any (fun j =>
          (cs[j]? == some '.') && i + 2 ≤ j && j + 2 ≤ cs.length))

/-! ### Data model: stored row and the JSON sub-objects -/

/-- The stored `metadata` JSON column; fields can be individually absent
(`existingMeta` defaults to `{}` when the column is NULL or unparsable). -/
structure MetaObj where
  createdAt : Option String := none
  createdBy : Option String := none
  updatedAt : Option String := none
  updatedBy : Option String := none
  deriving Repr, DecidableEq

/-- The `insurance` JSON column.  Legacy writes store
`{providerName, policyNumber, groupNumber}`; the `primaryPayer` shape may
carry `{payerId, payerType, displayName}` instead. -/
structure Insurance where
  providerName : Option String := none
  policyNumber : Option String := none
  groupNumber : Option String := none
  payerId : Option String := none
  payerType : Option String := none
  displayName : Option String := none
  deriving Repr, DecidableEq

/-- The V2 request-body `payer` object
 `{payerTypeName, planName, planId, groupNumber}`. -/
structure PayerObj where
  payerTypeName : Option String := none
  planName : Option String := none
  planId : Option String := none
  groupNumber : Option String := none
  deriving Repr, DecidableEq

/-- The `team` JSON column `{teamId?, id?, name?}`. -/
structure TeamObj where
  teamId : Option String := none
  id : Option String := none
  name : Option String := none
  deriving Repr, DecidableEq

/-- An opaque JSON object payload (address / primaryPhysician / agency):
the handlers stringify and re-parse it without looking inside. -/
structure JsObj where
  raw : String := ""
  deriving Repr, DecidableEq

/-- The `lastOrder` JSON column; the mock generator writes
`{id, date, status}`, the spec shape is `{orderNumber, orderDate, status,
displayText}`; the projectors accept either. -/
structure OrderObj where
  id : Option String := none
  orderNumber : Option String := none
  date : Option String := none
  orderDate : Option String := none
  status : Option String := none
  displayText : Option String := none
  deriving Repr, DecidableEq

/-- One row of the `patients` table of the `/api/v1` schema
(src/index.js second revision, lines 1155-1181; identical in
src/unnamed/part_001).  `firstName`/`lastName` are `TEXT NOT NULL`;
`isPinned` is the 0/1 INTEGER column read back through `!!`. -/
structure Row where
  id : String := ""
  guid : Option String := none
  firstName : String := ""
  lastName : String := ""
  dateOfBirth : Option String := none
  gender : Option String := none
  phone : Option String := none
  email : Option String := none
  address : Option JsObj := none
  roomNumber : Option String := none
  bedNumber : Option String := none
  admissionDate : Option String := none
  dischargeDate : Option String := none
  primaryPhysician : Option JsObj := none
  payer : Option String := none
  insurance : Option Insurance := none
  diagnosisCodes : Option (List String) := none
  status : Option String := none
  isPinned : Bool := false
  metadata : Option MetaObj := none
  team : Option TeamObj := none
  agency : Option JsObj := none
  lastOrder : Option OrderObj := none
  deriving Repr, DecidableEq

/-- The consistent error envelope produced by `handleError(res, status,
message, errorCode, details)`.  `details` is modelled as a list of strings
(the code variously passes a string, a list of strings, or small objects
rendered here as strings). -/
structure ErrResp where
  code : Nat
  message : String
  errorCode : Option String := none
  details : Option (List String) := none
  deriving Repr, DecidableEq

/-- Projection of an `Except` result onto its error, for equation-style
theorem statements. -/
def errOf {α : Type} : Except ErrResp α → Option ErrResp
  | .error e => some e
  | .ok _ => none

/-- Projection of an `Except` result onto its success value. -/
def okOf {α : Type} : Except ErrResp α → Option α
  | .error _ => none
  | .ok a => some a

/-! ### SQL helpers -/

/-- SQL `=` on a nullable TEXT column versus a nullable parameter:
`NULL = anything` is not true (three-valued logic). -/
def sqlEqOpt (a b : Option String) : Bool :=
  match a, b with
  | some x, some y => x == y
  | _, _ => false

/-- `JSON.stringify` of a stored team object (only used as a sort key for
`ORDER BY team`; field order teamId, id, name). -/
def serTeam (t : TeamObj) : String :=
  "\x7b" ++
    String.intercalate ","
      (([t.teamId.map (fun s => "\"teamId\":\"" ++ s ++ "\""),
         t.id.map (fun s => "\"id\":\"" ++ s ++ "\""),
         t.name.map (fun s => "\"name\":\"" ++ s ++ "\"")]).filterMap id) ++
  "\x7d"

/-- The TEXT value of the column named by an `ORDER BY` clause of the
modelled endpoints. -/
def colKey (col : String) (r : Row) : Option String :=
  match col with
  | "firstName" => some r.firstName
  | "lastName" => some r.lastName
  | "id" => some r.id
  | "dateOfBirth" => r.dateOfBirth
  | "admissionDate" => r.admissionDate
  | "team" => r.team.map serTeam
  | "address" => r.address.map JsObj.raw
  | _ => none

/-- `ORDER BY col dir` comparison between two rows. -/
def rowLe (col : String) (desc : Bool) (a b : Row) : Bool :=
  if desc then optStrLeB (colKey col b) (colKey col a)
  else optStrLeB (colKey col a) (colKey col b)

/-- Stable insertion into a sorted list. -/
def insertRow (le : Row → Row → Bool) (x : Row) : List Row → List Row
  | [] => [x]
  | y :: ys => if le x y then x :: y :: ys else y :: insertRow le x ys

/-- `ORDER BY` as a stable insertion sort. -/
def orderRows (le : Row → Row → Bool) : List Row → List Row
  | [] => []
  | x :: xs => insertRow le x (orderRows le xs)

/-! ### `rowToPatient` and the projectors -/

/-- The JS-visible patient object produced by `rowToPatient` (both the
`src/index.js` second-revision version, which uses `JSON.parse`, and the
`part_001` version, which uses `safeParse`, agree on handler-written rows;
`admissionDate` is commented out of the interface in both). -/
structure PatObj where
  id : String
  guid : Option String
  firstName : String
  lastName : String
  dateOfBirth : Option String
  gender : Option String
  phone : Option String
  email : Option String
  address : Option JsObj
  roomNumber : Option String
  bedNumber : Option String
  dischargeDate : Option String
  primaryPhysician : Option JsObj
  payer : Option String
  insurance : Option Insurance
  diagnosisCodes : Option (List String)
  status : Option String
  isPinned : Bool
  metadata : Option MetaObj
  team : Option TeamObj
  agency : Option JsObj
  lastOrder : Option OrderObj
  deriving Repr, DecidableEq

/-- `rowToPatient(row)` (src/index.js:1183-1213, src/unnamed/part_001:926-953):
field passthrough with `|| null` / `|| undefined` collapsing `""`. -/
def rowToPatientObj (row : Row) : PatObj :=
  { id := row.id
    guid := jsOrNone row.guid
    firstName := row.firstName
    lastName := row.lastName
    dateOfBirth := row.dateOfBirth
    gender := row.gender
    phone := row.phone
    email := jsOrNone row.email
    address := row.address
    roomNumber := jsOrNone row.roomNumber
    bedNumber := jsOrNone row.bedNumber
    dischargeDate := jsOrNone row.dischargeDate
    primaryPhysician := row.primaryPhysician
    payer := jsOrNone row.payer
    insurance := row.insurance
    diagnosisCodes := row.diagnosisCodes
    status := row.status
    isPinned := row.isPinned
    metadata := row.metadata
    team := row.team
    agency := row.agency
    lastOrder := row.lastOrder }

/-- The `payer` object of the legacy/search projection
`{payerTypeName, planName, planId, groupNumber}`. -/
structure PayerOut where
  payerTypeName : String
  planName : String
  planId : Option String
  groupNumber : Option String
  deriving Repr, DecidableEq

/-- The legacy/search response item
`{patientId, firstName, lastName, dob, team, isPinned, lastOrder, payer}`. -/
structure SearchItem where
  patientId : String
  firstName : String
  lastName : String
  dob : Option String
  team : Option String
  isPinned : Bool
  lastOrder : Option OrderObj
  payer : Option PayerOut
  deriving Repr, DecidableEq

/-- `rowToPatientSearch(row)` (src/index.js:1215-1239): maps `insurance` to
the `payer` structure; `dob` and `lastOrder` are passed through unchanged
(no date reformatting in this revision). -/
def rowToPatientSearch (row : Row) : SearchItem :=
  let pat := rowToPatientObj row
  let payerObj : Option PayerOut :=
    match pat.insurance with
    | some ins =>
      some { payerTypeName := jsOrStr pat.payer "Private Insurance/Self Pay"
             planName := jsOrStr ins.providerName "Unknown"
             planId := jsOrNone ins.policyNumber
             groupNumber := jsOrNone ins.groupNumber }
    | none => none
  { patientId := pat.id
    firstName := pat.firstName
    lastName := pat.lastName
    dob := pat.dateOfBirth
    team := pat.team.bind TeamObj.name
    isPinned := pat.isPinned
    lastOrder := pat.lastOrder
    payer := payerObj }

/-- The dob reformatting of `rowToPatientLegacy`
(src/unnamed/part_001:988-995): rewrite `YYYY-MM-DD` to `MM/DD/YYYY` when
the value contains `'-'`, splits into exactly three parts, and the first
part has length 4; otherwise pass through unchanged. -/
def legacyFormatDob (formattedDob : Option String) : Option String :=
  match formattedDob with
  | none => none
  | some s =>
    if s == "" then some s
    else if hasDashStr s then
      if (splitDashStr s).length == 3 && ((splitDashStr s).headD "").data.length == 4 then
        some (((splitDashStr s).getD 1 "") ++ "/" ++ ((splitDashStr s).getD 2 "") ++ "/"
              ++ ((splitDashStr s).getD 0 ""))
      else some s
    else some s

/-- The lastOrder transform of `rowToPatientLegacy`
(src/unnamed/part_001:969-986): copy the object and, whenever `date` is
truthy and contains `'-'`, rewrite it via
`const [y, m, d] = date.split('-'); date = `${m}/${d}/${y}`` (values that
are not `Y-M-D` shaped render missing pieces as `"undefined"`). -/
def legacyLastOrder (lo : Option OrderObj) : Option OrderObj :=
  match lo with
  | none => none
  | some o =>
    if jsTruthyS o.date && hasDashStr (o.date.getD "") then
      some { o with
             date := some (jsStrU (splitDashStr (o.date.getD ""))[1]? ++ "/"
                           ++ jsStrU (splitDashStr (o.date.getD ""))[2]? ++ "/"
                           ++ jsStrU (splitDashStr (o.date.getD ""))[0]?) }
    else some o

/-- `rowToPatientLegacy(row)` (src/unnamed/part_001:955-1007): like
`rowToPatientSearch` but with `dob` and the lastOrder `date` reformatted. -/
def rowToPatientLegacy (row : Row) : SearchItem :=
  let pat := rowToPatientObj row
  let payerObj : Option PayerOut :=
    match pat.insurance with
    | some ins =>
      some { payerTypeName := jsOrStr pat.payer "Private Insurance/Self Pay"
             planName := jsOrStr ins.providerName "Unknown"
             planId := jsOrNone ins.policyNumber
             groupNumber := jsOrNone ins.groupNumber }
    | none => none
  { patientId := pat.id
    firstName := pat.firstName
    lastName := pat.lastName
    dob := legacyFormatDob pat.dateOfBirth
    team := pat.team.bind TeamObj.name
    isPinned := pat.isPinned
    lastOrder := legacyLastOrder pat.lastOrder
    payer := payerObj }

/-- The `team` of the list-item projection. -/
structure TeamOut where
  teamId : String
  name : Option String
  deriving Repr, DecidableEq

/-- The `primaryPayer` of the list-item projection. -/
structure PrimaryPayerOut where
  payerId : String
  payerType : String
  displayName : String
  deriving Repr, DecidableEq

/-- The `lastOrder` of the list-item projection. -/
structure LastOrderOut where
  orderNumber : Option String
  status : Option String
  orderDate : Option String
  displayText : String
  deriving Repr, DecidableEq

/-- The list-item response shape
`{patientKey, patientId, firstName, lastName, dateOfBirth, priority, team,
primaryPayer, lastOrder}`. -/
structure ListItem where
  patientKey : String
  patientId : String
  firstName : String
  lastName : String
  dateOfBirth : Option String
  priority : String
  team : Option TeamOut
  primaryPayer : Option PrimaryPayerOut
  lastOrder : Option LastOrderOut
  deriving Repr, DecidableEq

/-- `rowToPatientListItem(row)` (src/unnamed/part_001:1734-1781). -/
def rowToPatientListItem (row : Row) : ListItem :=
  let pat := rowToPatientObj row
  let priority := if pat.isPinned then "Pinned" else "Normal"
  let team : Option TeamOut :=
    pat.team.map (fun t => { teamId := jsOrStr t.teamId (jsOrStr t.id "team-1"), name := t.name })
  let primaryPayer : Option PrimaryPayerOut :=
    match pat.insurance with
    | some ins =>
      some { payerId := jsOrStr ins.payerId "payer-unknown"
             payerType := jsOrStr ins.payerType "Insurance"
             displayName := jsOrStr ins.displayName (jsOrStr ins.providerName "Unknown") }
    | none =>
      match pat.payer with
      | some p => some { payerId := "payer-legacy", payerType := "Insurance", displayName := p }
      | none => none
  let lastOrder : Option LastOrderOut :=
    pat.lastOrder.map (fun o =>
      { orderNumber := jsOrOpt o.orderNumber o.id
        status := o.status
        orderDate := jsOrOpt o.orderDate o.date
        displayText := jsOrStr o.displayText (jsStrU (jsOrOpt o.orderNumber o.id) ++ " - " ++ jsStrU o.status) })
  { patientKey := pat.id
    patientId := jsOrStr pat.guid pat.id
    firstName := pat.firstName
    lastName := pat.lastName
    dateOfBirth := pat.dateOfBirth
    priority := priority
    team := team
    primaryPayer := primaryPayer
    lastOrder := lastOrder }

/-! ### `requireJson` middleware -/

/-- `requireJson(req, res, next)` (src/index.js:34-48, first revision):
skip the check for `/api/apic/` paths; otherwise POST/PUT/PATCH requests
whose content type is not `application/json` get a 415.  `none` means the
middleware calls `next()`. -/
def requireJson (method path : String) (isJsonContentType : Bool) : Option ErrResp :=
  if startsWithStr path "/api/apic/" then none
  else
    let m := upperStr method
    if (m == "POST" || m == "PUT" || m == "PATCH") && !isJsonContentType then
      some { code := 415, message := "Content-Type must be application/json",
             errorCode := some "INVALID_CONTENT_TYPE" }
    else none

/-! ### Sort planning -/

/-- `ALLOWED_SORT_FIELDS` of the strict legacy search endpoint
(src/index.js:542). -/
def strictSortAllowed : List String :=
  ["firstName", "lastName", "patientId", "team"]

/-- The sortBy handling of `GET /api/patients/:shipToId`
(src/index.js:555-568, first revision): unknown values are a 400; allowed
values are mapped to a fixed column name (`team` → `teamName`).  The
source `details` is `[{field:'sortBy', issue}]`, rendered here as the
issue string. -/
def strictSearchSortColumn (sortByQ : Option String) : Except ErrResp String :=
  if !(strictSortAllowed.contains (jsOrStr sortByQ "firstName")) then
    .error { code := 400,
             message := "Invalid sortBy value. must be one of: firstName, lastName, patientId, team",
             errorCode := some "BAD_REQUEST",
             details := some ["sortBy: must be one of: firstName, lastName, patientId, team"] }
  else
    -- let dbSort = 'firstName'; if (sortBy === ...) dbSort = ...; written as
    -- one conditional (last assignment wins)
    .ok (if jsOrStr sortByQ "firstName" == "team" then "teamName"
         else if jsOrStr sortByQ "firstName" == "patientId" then "patientId"
         else if jsOrStr sortByQ "firstName" == "lastName" then "lastName"
         else "firstName")

/-- `allowedSort` of the lenient `GET /api/v1/patients` handler
(src/index.js:1383). -/
def lenientAllowedSort : List String :=
  ["firstName", "lastName", "dateOfBirth", "admissionDate"]

/-- `safeSortBy` (src/index.js:1379-1384): unknown sortBy values fall back
to the default column `firstName`. -/
def lenientSortColumn (sortByQ : Option String) : String :=
  if lenientAllowedSort.contains (jsOrStr sortByQ "firstName") then jsOrStr sortByQ "firstName"
  else "firstName"

/-- `safeSortMethod` (src/index.js:1380-1385): invalid values fall back to
`ASC`. -/
def lenientSortMethod (sortMethodQ : Option String) : String :=
  if upperStr (jsOrStr sortMethodQ "asc") == "ASC" || upperStr (jsOrStr sortMethodQ "asc") == "DESC" then
    upperStr (jsOrStr sortMethodQ "asc")
  else "ASC"

/-! ### List and search handlers -/

/-- The free-text search blob
`LOWER(firstName || ' ' || lastName || ' ' || COALESCE(guid,'') || ' ' ||
COALESCE(email,''))` shared by the list and search WHERE clauses. -/
def likeBlob (r : Row) : String :=
  r.firstName ++ " " ++ r.lastName ++ " " ++ r.guid.getD "" ++ " " ++ r.email.getD ""

/-- `blob LIKE '%' || LOWER(q) || '%'` (the `%`/`_` wildcard characters
inside `q` itself are not modelled; no claim exercises them). -/
def qMatch (q : String) (r : Row) : Bool :=
  strContainsSub (lowerStr (likeBlob r)) (lowerStr q)

/-- The WHERE predicate of `GET /api/v1/patients` (src/index.js:1389-1403):
optional free-text clause and optional `isPinned = ?` clause, ANDed. -/
def listPred (q : String) (pinQ : Option String) (r : Row) : Bool :=
  (q == "" || qMatch q r) &&
    (match pinQ with
     | none => true
     | some s => r.isPinned == (lowerStr s == "true"))

/-- The WHERE predicate of `GET /api/v1/patients/search`
(src/index.js:1299-1310): only the free-text clause (`soldTo` is accepted
but not used as a filter). -/
def searchPred (q : String) (r : Row) : Bool :=
  q == "" || qMatch q r

/-- The response of `GET /api/v1/patients`
`{data, totalRecords, pageNo, curentPageSize, pagesCount}` (the typo
`curentPageSize` is in the contract). -/
structure ListRespV1 where
  data : List PatObj
  totalRecords : Nat
  pageNo : Nat
  curentPageSize : Nat
  pagesCount : Nat
  deriving Repr, DecidableEq

/-- `GET /api/v1/patients` (src/index.js:1373-1424): lenient pagination and
sorting, count query and page scan over the same WHERE clause,
`pagesCount = Math.ceil(totalRecords / pageSize)`. -/
def listPatientsV1 (qQ : Option String) (pageNoQ pageSizeQ : Option (Option Int))
    (sortByQ sortMethodQ : Option String) (pinQ : Option String)
    (st : List Row) : ListRespV1 :=
  let q := trimStr (jsOrStr qQ "")
  let pageNo := (max 1 (jsNumOrD pageNoQ 1)).toNat
  let pageSize := (max 1 (min 100 (jsNumOrD pageSizeQ 25))).toNat
  let offset := (pageNo - 1) * pageSize
  let safeSortBy := lenientSortColumn sortByQ
  let safeSortMethod := lenientSortMethod sortMethodQ
  let filtered := st.filter (listPred q pinQ)
  let totalRecords := filtered.length
  -- Math.ceil(totalRecords / pageSize), pageSize ≥ 1
  let pagesCount := (totalRecords + pageSize - 1) / pageSize
  let sorted := orderRows (rowLe safeSortBy (safeSortMethod == "DESC")) filtered
  let data := ((sorted.drop offset).take pageSize).map rowToPatientObj
  { data := data, totalRecords := totalRecords, pageNo := pageNo,
    curentPageSize := pageSize, pagesCount := pagesCount }

/-- `ALLOWED_SORT_FIELDS_V2` (src/index.js:1243). -/
def sortAllowedV2 : List String :=
  ["LAST_NAME", "FIRST_NAME", "TEAM", "ADDRESS", "PATIENT_ID"]

/-- The response of `GET /api/v1/patients/search`
`{patients, totalRecords, pageNo, pagesCount}`. -/
structure SearchRespV1 where
  patients : List SearchItem
  totalRecords : Nat
  pageNo : Nat
  pagesCount : Nat
  deriving Repr, DecidableEq

/-- The validation error list of `GET /api/v1/patients/search`
(src/index.js:1257-1273). -/
def searchErrors (soldToQ : Option String) (pageNoQ pageSizeQ : Option (Option Int))
    (sortByQ sortMethodQ : Option String) : List String :=
  (if !(jsTruthyS soldToQ) then ["Required parameter 'soldTo' is missing"]
   else if trimStr (soldToQ.getD "") == "" then ["soldTo is required and cannot be empty"]
   else [])
  ++ (match pageNoQ with
      | none => []
      | some v =>
        if (match v with | none => true | some n => n < 1) then
          ["Invalid query parameter: pageNo must be greater than or equal to 1"]
        else [])
  ++ (match pageSizeQ with
      | none => []
      | some v =>
        if (match v with | none => true | some n => n < 1 || 100 < n) then
          ["Invalid query parameter: pageSize must be between 1 and 100"]
        else [])
  ++ (if jsTruthyS sortByQ && !(sortAllowedV2.contains (sortByQ.getD "")) then
        ["Invalid sortBy value. Must be one of: LAST_NAME, FIRST_NAME, TEAM, ADDRESS, PATIENT_ID"]
      else [])
  ++ (if jsTruthyS sortMethodQ && !(sortMethodQ.getD "" == "ASC" || sortMethodQ.getD "" == "DESC") then
        ["Invalid sortMethod value. Must be one of: ASC, DESC"]
      else [])

/-- The execution part of `GET /api/v1/patients/search`
(src/index.js:1278-1330): count query and page scan over the same WHERE
clause, `pagesCount = Math.ceil(totalRecords / pSize)`, sort mapping with
default `lastName ASC` (src/index.js:1285-1297). -/
def searchExec (qQ : Option String) (pageNoQ pageSizeQ : Option (Option Int))
    (sortByQ sortMethodQ : Option String) (st : List Row) : SearchRespV1 :=
  let q := trimStr (jsOrStr qQ "")
  let pNo := (max 1 (jsNumOrD pageNoQ 1)).toNat
  let pSize := (max 1 (min 100 (jsNumOrD pageSizeQ 25))).toNat
  let offset := (pNo - 1) * pSize
  let desc := sortMethodQ == some "DESC"
  let col :=
    if jsTruthyS sortByQ then
      match sortByQ.getD "" with
      | "LAST_NAME" => "lastName"
      | "FIRST_NAME" => "firstName"
      | "PATIENT_ID" => "id"
      | "TEAM" => "team"
      | "ADDRESS" => "address"
      | _ => "lastName"
    else "lastName"
  let descEff := if jsTruthyS sortByQ then desc else false
  let filtered := st.filter (searchPred q)
  let totalRecords := filtered.length
  let pagesCount := (totalRecords + pSize - 1) / pSize
  let sorted := orderRows (rowLe col descEff) filtered
  let patients := ((sorted.drop offset).take pSize).map rowToPatientSearch
  { patients := patients, totalRecords := totalRecords, pageNo := pNo,
    pagesCount := pagesCount }

/-- `GET /api/v1/patients/search` (src/index.js:1248-1330): header and
query-parameter validation (strict), then the count + scan execution. -/
def searchPatientsV1 (auth pingAuth : Option String) (soldToQ qQ : Option String)
    (pageNoQ pageSizeQ : Option (Option Int)) (sortByQ sortMethodQ : Option String)
    (st : List Row) : Except ErrResp SearchRespV1 :=
  if !(jsTruthyS auth) then
    .error { code := 401, message := "Unauthorized",
             details := some ["Full authentication is required to access this resource. Missing or invalid Authorization header."] }
  else if !(jsTruthyS pingAuth) then
    .error { code := 401, message := "Unauthorized",
             details := some ["Missing required Ping-Authorization header."] }
  else if !((searchErrors soldToQ pageNoQ pageSizeQ sortByQ sortMethodQ).isEmpty) then
    .error { code := 400, message := "Bad Request",
             details := some [if (searchErrors soldToQ pageNoQ pageSizeQ sortByQ sortMethodQ).length == 1
                              then (searchErrors soldToQ pageNoQ pageSizeQ sortByQ sortMethodQ).headD ""
                              else String.intercalate "; "
                                     (searchErrors soldToQ pageNoQ pageSizeQ sortByQ sortMethodQ)] }
  else
    .ok (searchExec qQ pageNoQ pageSizeQ sortByQ sortMethodQ st)

/-! ### Create (admin shape, src/index.js second revision) and PUT -/

/-- The request body read by `POST /api/v1/patients` (admin shape) and by
`PUT /api/v1/patients/:id` (src/index.js second revision).
`diagnosisCodes` is `none` when absent or not an array.  `isPinned` is the
JS truthiness of the supplied value. -/
structure WriteBody where
  guid : Option String := none
  firstName : Option String := none
  lastName : Option String := none
  dateOfBirth : Option String := none
  gender : Option String := none
  phone : Option String := none
  email : Option String := none
  address : Option JsObj := none
  roomNumber : Option String := none
  bedNumber : Option String := none
  admissionDate : Option String := none
  dischargeDate : Option String := none
  primaryPhysician : Option JsObj := none
  payer : Option String := none
  insurance : Option Insurance := none
  diagnosisCodes : Option (List String) := none
  status : Option String := none
  isPinned : Bool := false
  metadata : Option MetaObj := none
  team : Option TeamObj := none
  agency : Option JsObj := none
  lastOrder : Option OrderObj := none
  deriving Repr, DecidableEq

/-- The shared body-format checks of the admin create and PUT handlers:
`if (body.email && !/^\S+@\S+\.\S+$/.test(body.email))` and
`if (body.gender && !['MALE','FEMALE','OTHER'].includes(body.gender))`. -/
def formatErrors (email gender : Option String) : List String :=
  (if jsTruthyS email && !(emailRegexOk (email.getD "")) then ["Invalid email format"] else [])
  ++ (if jsTruthyS gender && !(["MALE", "FEMALE", "OTHER"].contains (gender.getD "")) then
        ["Invalid gender"]
      else [])

/-- The duplicate-name/DOB conflict detail of the admin create
(src/index.js:1496). -/
def adminDupDetails (fn ln dob : String) : String :=
  "Patient with name " ++ (fn ++ (" " ++ (ln ++ (" and DOB " ++ (dob ++ " already exists")))))

/-- The duplicate-id conflict detail of the later-generation create
(src/unnamed/part_001:1317). -/
def idDupDetails (id : String) : String :=
  "Patient with ID " ++ (id ++ " already exists")

/-- The row inserted by `POST /api/v1/patients` (src/index.js:1460-1489,
1499-1524). -/
def createAdminRow (freshId now : String) (xUser : Option String) (body : WriteBody) : Row :=
  let createdBy := jsOrStr xUser "system"
  { id := freshId
    guid := jsOrNone body.guid
    firstName := body.firstName.getD ""
    lastName := body.lastName.getD ""
    dateOfBirth := jsOrNone body.dateOfBirth
    gender := jsOrNone body.gender
    phone := jsOrNone body.phone
    email := jsOrNone body.email
    address := body.address
    roomNumber := jsOrNone body.roomNumber
    bedNumber := jsOrNone body.bedNumber
    admissionDate := body.admissionDate
    dischargeDate := jsOrNone body.dischargeDate
    primaryPhysician := body.primaryPhysician
    payer := jsOrNone body.payer
    insurance := body.insurance
    diagnosisCodes := body.diagnosisCodes
    status := some (jsOrStr body.status "ACTIVE")
    isPinned := body.isPinned
    metadata := some { createdAt := some now, createdBy := some createdBy,
                       updatedAt := some now, updatedBy := some createdBy }
    team := body.team
    agency := body.agency
    lastOrder := body.lastOrder }

/-- `POST /api/v1/patients` (src/index.js:1438-1534, admin shape):
required fields `firstName`/`lastName`/`insurance`, email/gender format
checks, then the `(firstName, lastName, dateOfBirth)` duplicate check
(SQL `=`, so a NULL dateOfBirth never matches), 409 `DUP_PATIENT` on a
match, insert otherwise.  On `.error` nothing is inserted. -/
def createPatientAdmin (freshId now : String) (xUser : Option String)
    (body : WriteBody) (st : List Row) : Except ErrResp (Row × List Row) :=
  let errors : List String :=
    (if !(jsTruthyS body.firstName) then ["firstName is required"] else [])
    ++ (if !(jsTruthyS body.lastName) then ["lastName is required"] else [])
    ++ (if body.insurance.isNone then ["insurance is required"] else [])
    ++ formatErrors body.email body.gender
  if !(errors.isEmpty) then
    .error { code := 400, message := "Validation Failed", errorCode := some "VAL_ERR",
             details := some errors }
  else
    let patient := createAdminRow freshId now xUser body
    if st.any (fun r =>
        r.firstName == patient.firstName && r.lastName == patient.lastName &&
          sqlEqOpt r.dateOfBirth patient.dateOfBirth) then
      .error { code := 409, message := "Patient already exists", errorCode := some "DUP_PATIENT",
               details := some [adminDupDetails patient.firstName patient.lastName
                                  (jsStrN patient.dateOfBirth)] }
    else
      .ok (patient, st ++ [patient])

/-- The full-replacement row written by `PUT /api/v1/patients/:id`
(src/index.js:1560-1583).  Note that `metadata` is rebuilt from the
*request body*: `createdAt: (body.metadata && body.metadata.createdAt) ||
updatedAt` (line 1579), so the stored audit fields are not consulted. -/
def putRow (now : String) (xUser : Option String) (id : String) (body : WriteBody) : Row :=
  let updatedBy := jsOrStr xUser "system"
  { id := id
    guid := jsOrNone body.guid
    firstName := body.firstName.getD ""
    lastName := body.lastName.getD ""
    dateOfBirth := jsOrNone body.dateOfBirth
    gender := jsOrNone body.gender
    phone := jsOrNone body.phone
    email := jsOrNone body.email
    address := body.address
    roomNumber := jsOrNone body.roomNumber
    bedNumber := jsOrNone body.bedNumber
    admissionDate := body.admissionDate
    dischargeDate := jsOrNone body.dischargeDate
    primaryPhysician := body.primaryPhysician
    payer := jsOrNone body.payer
    insurance := body.insurance
    diagnosisCodes := body.diagnosisCodes
    status := some (jsOrStr body.status "ACTIVE")
    isPinned := body.isPinned
    metadata := some { createdAt := some (jsOrStr (body.metadata.bind MetaObj.createdAt) now)
                       createdBy := some (jsOrStr (body.metadata.bind MetaObj.createdBy) updatedBy)
                       updatedAt := some now
                       updatedBy := some updatedBy }
    team := body.team
    agency := body.agency
    lastOrder := body.lastOrder }

/-- The validation error list of the PUT handler (src/index.js:1544-1552). -/
def putErrors (body : WriteBody) : List String :=
  (if !(jsTruthyS body.firstName) then ["firstName is required for full update"] else [])
  ++ (if !(jsTruthyS body.lastName) then ["lastName is required for full update"] else [])
  ++ (if body.insurance.isNone then ["insurance is required for full update"] else [])
  ++ formatErrors body.email body.gender

/-- `PUT /api/v1/patients/:id` (src/index.js:1539-1620): required fields,
format checks, then a full-column UPDATE; 404 when no row matches. -/
def putPatient (now : String) (xUser : Option String) (id : String)
    (body : WriteBody) (st : List Row) : Except ErrResp (Row × List Row) :=
  if id == "" then .error { code := 400, message := "Invalid id" }
  else if !((putErrors body).isEmpty) then
    .error { code := 400, message := "Validation Failed", errorCode := some "VAL_ERR",
             details := some (putErrors body) }
  else
    match st.find? (fun r => r.id == id) with
    | none => .error { code := 404, message := "Patient not found" }
    | some _ =>
      .ok (putRow now xUser id body,
           st.map (fun r => if r.id == id then putRow now xUser id body else r))

/-! ### Create (spec shape, src/unnamed/part_001 second revision) -/

/-- `body.team` of the V2 create: either a bare string or an object
(src/unnamed/part_001:1306). -/
inductive TeamVal where
  | str (s : String)
  | obj (t : TeamObj)
  deriving Repr, DecidableEq

/-- The request body read by the later-generation `POST /api/v1/patients`
(src/unnamed/part_001:1227-1356). -/
structure CreateBodyV2 where
  patientId : Option String := none
  id : Option String := none
  guid : Option String := none
  firstName : Option String := none
  lastName : Option String := none
  dob : Option String := none
  dateOfBirth : Option String := none
  gender : Option String := none
  phone : Option String := none
  email : Option String := none
  address : Option JsObj := none
  roomNumber : Option String := none
  bedNumber : Option String := none
  admissionDate : Option String := none
  dischargeDate : Option String := none
  primaryPhysician : Option JsObj := none
  payer : Option PayerObj := none
  insurance : Option Insurance := none
  diagnosisCodes : Option (List String) := none
  status : Option String := none
  isPinned : Bool := false
  team : Option TeamVal := none
  agency : Option JsObj := none
  lastOrder : Option OrderObj := none
  deriving Repr, DecidableEq

/-- The row inserted by the V2 create (src/unnamed/part_001:1249-1309),
including the payer-to-insurance conversion (lines 1262-1275): when a
`payer` object is supplied without `insurance`, store
`{providerName: payer.planName, policyNumber: payer.planId, groupNumber:
payer.groupNumber}` and put `payer.payerTypeName` in the `payer` column.
(When `insurance` is also present, `payerType = body.payer.payerTypeName ?
... : (body.payer || null)` would bind the raw object as the TEXT
parameter if `payerTypeName` were falsy; that corner is outside every
claim and is modelled as `none`.) -/
def createV2Row (freshId now : String) (xUser : Option String) (body : CreateBodyV2) : Row :=
  let id := jsOrStr body.patientId (jsOrStr body.id freshId)
  let dob := jsOrOpt body.dob (jsOrOpt body.dateOfBirth none)
  let conv :=
    match body.payer, body.insurance with
    | some p, none =>
      (some { providerName := p.planName, policyNumber := p.planId,
              groupNumber := p.groupNumber : Insurance },
       p.payerTypeName)
    | some p, some ins =>
      (some ins, if jsTruthyS p.payerTypeName then p.payerTypeName else none)
    | none, insOpt => (insOpt, none)
  let createdBy := jsOrStr xUser "system"
  { id := id
    guid := jsOrNone body.guid
    firstName := body.firstName.getD ""
    lastName := body.lastName.getD ""
    dateOfBirth := dob
    gender := jsOrNone body.gender
    phone := jsOrNone body.phone
    email := jsOrNone body.email
    address := body.address
    roomNumber := jsOrNone body.roomNumber
    bedNumber := jsOrNone body.bedNumber
    admissionDate := body.admissionDate
    dischargeDate := jsOrNone body.dischargeDate
    primaryPhysician := body.primaryPhysician
    payer := conv.2
    insurance := conv.1
    diagnosisCodes := body.diagnosisCodes
    status := some (jsOrStr body.status "ACTIVE")
    isPinned := body.isPinned
    metadata := some { createdAt := some now, createdBy := some createdBy,
                       updatedAt := some now, updatedBy := some createdBy }
    team := (match body.team with
             | some (.str s) => some { name := some s }
             | some (.obj t) => some t
             | none => none)
    agency := body.agency
    lastOrder := body.lastOrder }

/-- The validation error list of the V2 create
(src/unnamed/part_001:1231-1243). -/
def createV2Errors (body : CreateBodyV2) : List String :=
  (if !(jsTruthyS body.patientId) && !(jsTruthyS body.id) then ["patientId is required"] else [])
  ++ (if !(jsTruthyS body.firstName) then ["firstName is required"] else [])
  ++ (if !(jsTruthyS body.lastName) then ["lastName is required"] else [])
  ++ (if body.payer.isNone && body.insurance.isNone then ["payer is required"] else [])
  ++ formatErrors body.email body.gender

/-- `POST /api/v1/patients` (src/unnamed/part_001:1227-1356, spec shape):
required `(patientId or id)`, `firstName`, `lastName`, `(payer or
insurance)`; email/gender checks; id-only duplicate check with 409
`DUP_PATIENT`; insert otherwise.  (The JS response line calls the
undefined `rowToPatientSearch` in this revision; the store effect modelled
here happens before that.) -/
def createPatientV2 (freshId now : String) (xUser : Option String)
    (body : CreateBodyV2) (st : List Row) : Except ErrResp (Row × List Row) :=
  let errors := createV2Errors body
  if !(errors.isEmpty) then
    .error { code := 400, message := "Validation Failed", errorCode := some "VAL_ERR",
             details := some errors }
  else
    let patient := createV2Row freshId now xUser body
    if st.any (fun r => r.id == patient.id) then
      .error { code := 409, message := "Patient already exists", errorCode := some "DUP_PATIENT",
               details := some [idDupDetails patient.id] }
    else
      .ok (patient, st ++ [patient])

/-- `GET /api/v1/patients/:id` (src/unnamed/part_001:1216-1224): 404 when
absent, otherwise the list-item projection of the row. -/
def getPatientListItem (id : String) (st : List Row) : Except ErrResp ListItem :=
  if id == "" then .error { code := 400, message := "Invalid id" }
  else
    match st.find? (fun r => r.id == id) with
    | none => .error { code := 404, message := "Patient not found" }
    | some row => .ok (rowToPatientListItem row)

/-! ### PATCH (partial update) -/

/-- The request body of `PATCH /api/v1/patients/:id`.  Each field is
`Option (Option _)`: the outer layer is key presence
(`body.x !== undefined`), the inner layer distinguishes an explicit `null`
from a value.  `isPinned` carries the JS truthiness of the supplied value
(`body.isPinned ? 1 : 0`); `diagnosisCodes` is inner-`none` when null or
not an array. -/
structure PatchBody where
  firstName : Option (Option String) := none
  lastName : Option (Option String) := none
  dateOfBirth : Option (Option String) := none
  gender : Option (Option String) := none
  phone : Option (Option String) := none
  email : Option (Option String) := none
  address : Option (Option JsObj) := none
  roomNumber : Option (Option String) := none
  bedNumber : Option (Option String) := none
  admissionDate : Option (Option String) := none
  dischargeDate : Option (Option String) := none
  primaryPhysician : Option (Option JsObj) := none
  payer : Option (Option String) := none
  insurance : Option (Option Insurance) := none
  diagnosisCodes : Option (Option (List String)) := none
  status : Option (Option String) := none
  isPinned : Option Bool := none
  team : Option (Option TeamObj) := none
  agency : Option (Option JsObj) := none
  lastOrder : Option (Option OrderObj) := none
  deriving Repr, DecidableEq

/-- `fields.length > 0`: at least one updatable key is present in the
PATCH body (src/index.js:1637-1664,1666). -/
def patchHasFields (b : PatchBody) : Bool :=
  b.firstName.isSome || b.lastName.isSome || b.dateOfBirth.isSome || b.gender.isSome ||
  b.phone.isSome || b.email.isSome || b.address.isSome || b.roomNumber.isSome ||
  b.bedNumber.isSome || b.admissionDate.isSome || b.dischargeDate.isSome ||
  b.primaryPhysician.isSome || b.payer.isSome || b.insurance.isSome ||
  b.diagnosisCodes.isSome || b.status.isSome || b.isPinned.isSome || b.team.isSome ||
  b.agency.isSome || b.lastOrder.isSome

/-- The merged metadata of the PATCH handler (src/index.js:1672-1682):
`createdAt`/`createdBy` from the stored metadata (defaulting to the new
stamp when absent or falsy), `updatedAt`/`updatedBy` refreshed. -/
def patchMergedMeta (now updatedBy : String) (r0 : Row) : MetaObj :=
  let existingMeta := r0.metadata.getD {}
  { createdAt := some (jsOrStr existingMeta.createdAt now)
    createdBy := some (jsOrStr existingMeta.createdBy updatedBy)
    updatedAt := some now
    updatedBy := some updatedBy }

/-- The UPDATE applied by the PATCH handler to a matching row: exactly the
present keys are written (explicit inner `none` writes SQL NULL),
absent keys are untouched, and `metadata` is always set to the merged
metadata (src/index.js:1637-1664,1684-1687). -/
def patchApply (b : PatchBody) (mm : MetaObj) (r : Row) : Row :=
  { r with
    firstName := (match b.firstName with | some (some s) => s | _ => r.firstName)
    lastName := (match b.lastName with | some (some s) => s | _ => r.lastName)
    dateOfBirth := b.dateOfBirth.getD r.dateOfBirth
    gender := b.gender.getD r.gender
    phone := b.phone.getD r.phone
    email := b.email.getD r.email
    address := b.address.getD r.address
    roomNumber := b.roomNumber.getD r.roomNumber
    bedNumber := b.bedNumber.getD r.bedNumber
    admissionDate := b.admissionDate.getD r.admissionDate
    dischargeDate := b.dischargeDate.getD r.dischargeDate
    primaryPhysician := b.primaryPhysician.getD r.primaryPhysician
    payer := b.payer.getD r.payer
    insurance := b.insurance.getD r.insurance
    diagnosisCodes := b.diagnosisCodes.getD r.diagnosisCodes
    status := b.status.getD r.status
    isPinned := b.isPinned.getD r.isPinned
    team := b.team.getD r.team
    agency := b.agency.getD r.agency
    lastOrder := b.lastOrder.getD r.lastOrder
    metadata := some mm }

/-- The PATCH gender check (src/index.js:1640-1644): a present `gender`
key outside {MALE, FEMALE, OTHER} (including an explicit `null`). -/
def patchGenderBad (b : PatchBody) : Bool :=
  match b.gender with
  | some g => !(g == some "MALE" || g == some "FEMALE" || g == some "OTHER")
  | none => false

/-- The PATCH status check (src/index.js:1656-1660): a present `status`
key outside {ACTIVE, DISCHARGED, PENDING} (including an explicit `null`). -/
def patchStatusBad (b : PatchBody) : Bool :=
  match b.status with
  | some s => !(s == some "ACTIVE" || s == some "DISCHARGED" || s == some "PENDING")
  | none => false

/-- The found-row branch of the PATCH handler: the UPDATE statement.
Writing an explicit `null` into the `TEXT NOT NULL` columns
`firstName`/`lastName` (schema, src/index.js:1155-1181) makes the UPDATE
fail and surfaces as a 500 store error with no change. -/
def patchFound (now : String) (xUser : Option String) (id : String)
    (b : PatchBody) (r0 : Row) (st : List Row) : Except ErrResp (Row × List Row) :=
  if b.firstName == some none || b.lastName == some none then
    .error { code := 500, message := "SQLITE_CONSTRAINT: NOT NULL constraint failed: patients" }
  else
    .ok (patchApply b (patchMergedMeta now (jsOrStr xUser "system") r0) r0,
         st.map (fun r =>
           if r.id == id then patchApply b (patchMergedMeta now (jsOrStr xUser "system") r0) r
           else r))

/-- `PATCH /api/v1/patients/:id` (src/index.js:1623-1697): enum validation
(`gender`, `status`) and the zero-field check happen before any store
access; then the stored metadata is fetch-merged (404 when the row is
absent) and a single UPDATE writes only the present keys. -/
def patchPatient (now : String) (xUser : Option String) (id : String)
    (b : PatchBody) (st : List Row) : Except ErrResp (Row × List Row) :=
  if id == "" then .error { code := 400, message := "Invalid id" }
  else if patchGenderBad b then
    .error { code := 400, message := "Invalid gender" }
  else if patchStatusBad b then
    .error { code := 400, message := "Invalid status" }
  else if !(patchHasFields b) then
    .error { code := 400, message := "No updatable fields provided" }
  else
    match st.find? (fun r => r.id == id) with
    | none => .error { code := 404, message := "Patient not found" }
    | some r0 => patchFound now xUser id b r0 st

/-- One PATCH request: clock value, optional `X-User` header, target id,
body. -/
structure PatchCall where
  now : String
  xUser : Option String := none
  id : String
  body : PatchBody
  deriving Repr

/-- The store after one PATCH request (validation errors leave the store
untouched, mirroring that no UPDATE runs on a rejected request). -/
def patchStep (st : List Row) (c : PatchCall) : List Row :=
  match patchPatient c.now c.xUser c.id c.body st with
  | .ok (_, st') => st'
  | .error _ => st

/-- The store after a sequence of PATCH requests. -/
def patchSeq (st : List Row) (cs : List PatchCall) : List Row :=
  cs.foldl patchStep st

/-! ### Bulk delete -/

/-- One entry of the bulk-delete per-key result list. -/
structure DeleteResult where
  key : String
  status : String
  deriving Repr, DecidableEq

/-- The bulk-delete response: HTTP status and the per-key result list. -/
structure DeleteResp where
  code : Nat
  results : List DeleteResult
  deriving Repr, DecidableEq

/-- Modelled from the spec: the bulk delete endpoint
`DELETE /api/patients/:shipToId?patientKeys=...` is not present under
`src/` (only its callers `src/verify_delete.js` and
`src/verify_endpoints.js` exercise it); modelled from spec §4.5: the
ship-to id is accepted but unused, each key is deleted independently, and
the call returns HTTP 200 with `[{key, status: SUCCESS|NOT_FOUND}]`
instead of failing the batch. -/
def deletePatients (shipToId : String) (keys : List String) (st : List Row) :
    DeleteResp × List Row :=
  match keys with
  | [] => ({ code := 200, results := [] }, st)
  | k :: ks =>
    let hit := st.any (fun r => r.id == k)
    let st' := if hit then st.filter (fun r => !(r.id == k)) else st
    let rest := deletePatients shipToId ks st'
    ({ code := 200,
       results := { key := k, status := if hit then "SUCCESS" else "NOT_FOUND" } :: rest.1.results },
     rest.2)

/-! ## Theorems -/

/-- C10: Every POST, PUT, or PATCH request whose content type is not
`application/json` receives a 415 error with errorCode
`INVALID_CONTENT_TYPE`, except requests whose path starts with
`/api/apic/`, which bypass the content-type check entirely. -/
theorem requireJson_contract (method path : String) (isJson : Bool) :
    (startsWithStr path "/api/apic/" = true → requireJson method path isJson = none) ∧
    (startsWithStr path "/api/apic/" = false →
      (upperStr method == "POST" || upperStr method == "PUT" || upperStr method == "PATCH") = true →
      isJson = false →
      (requireJson method path isJson).map ErrResp.code = some 415 ∧
        (requireJson method path isJson).bind ErrResp.errorCode = some "INVALID_CONTENT_TYPE") := by
  constructor
  · intro h
    simp [requireJson, h]
  · intro h hm hj
    subst hj
    simp [requireJson, h, hm]

/-- Witness for C10 at a concrete POST with a non-JSON content type and a
concrete `/api/apic/` request. -/
theorem requireJson_contract_witness :
    (requireJson "POST" "/api/v1/patients" false).map ErrResp.code = some 415 ∧
    requireJson "POST" "/api/apic/token" false = none := by
  refine ⟨((requireJson_contract "POST" "/api/v1/patients" false).2 (by decide) (by decide) rfl).1, ?_⟩
  exact (requireJson_contract "POST" "/api/apic/token" false).1 (by decide)

/-- C4: For every non-empty `sortBy` value outside the fixed allow-list,
the ORDER BY column is never taken from the user input: the strict legacy
search endpoint rejects the request with a 400 validation error, the
lenient `GET /api/v1/patients` endpoint falls back to the default column
`firstName`; and every column either endpoint ever sorts by belongs to a
fixed set.  (An empty `sortBy` is treated as absent by `|| 'firstName'`
in both endpoints.) -/
theorem sortBy_allowlist :
    (∀ s : String, s ≠ "" → s ∉ strictSortAllowed →
      (errOf (strictSearchSortColumn (some s))).map ErrResp.code = some 400) ∧
    (∀ q col, strictSearchSortColumn q = .ok col →
      col ∈ ["firstName", "lastName", "patientId", "teamName"]) ∧
    (∀ s : String, s ∉ lenientAllowedSort → lenientSortColumn (some s) = "firstName") ∧
    (∀ q, lenientSortColumn q ∈ lenientAllowedSort) := by
  refine ⟨?_, ?_, ?_, ?_⟩
  · intro s hne hmem
    have hb : (s == "") = false := by simpa using hne
    simp [strictSearchSortColumn, jsOrStr, hb, hmem, errOf]
  · intro q col h
    unfold strictSearchSortColumn at h
    split at h
    · simp at h
    · injection h with h
      subst h
      split
      · decide
      · split
        · decide
        · split
          · decide
          · decide
  · intro s hmem
    by_cases hs : s = ""
    · subst hs; decide
    · have hb : (s == "") = false := by simpa using hs
      simp [lenientSortColumn, jsOrStr, hb, hmem]
  · intro q
    unfold lenientSortColumn
    split
    · next h => simpa using h
    · decide

/-- Witness for C4 at a concrete injection-style `sortBy` value. -/
theorem sortBy_allowlist_witness :
    (errOf (strictSearchSortColumn (some "patientKey; DROP TABLE patients"))).map ErrResp.code
        = some 400 ∧
    lenientSortColumn (some "patientKey; DROP TABLE patients") = "firstName" :=
  ⟨sortBy_allowlist.1 _ (by decide) (by decide),
   sortBy_allowlist.2.2.1 _ (by decide)⟩

/-- Concrete row for the C8 counterexample: stored dates in `YYYY-MM-DD`
form. -/
def c8Row : Row :=
  { id := "p8", firstName := "A", lastName := "B",
    dateOfBirth := some "2000-01-02",
    lastOrder := some { id := some "O1", date := some "2023-05-06" } }

/-- C8 counterexample: the claim says the legacy/search Projector
reformats `YYYY-MM-DD` dates, citing both `rowToPatientLegacy` and
`rowToPatientSearch`; but `rowToPatientSearch` (src/index.js:1215-1239)
passes `dob` and the lastOrder date through unchanged — only
`rowToPatientLegacy` reformats. -/
theorem search_projector_no_reformat :
    (rowToPatientSearch c8Row).dob = some "2000-01-02" ∧
    (rowToPatientSearch c8Row).dob ≠ some "01/02/2000" ∧
    (rowToPatientSearch c8Row).lastOrder = some { id := some "O1", date := some "2023-05-06" } ∧
    (rowToPatientLegacy c8Row).dob = some "01/02/2000" := by
  refine ⟨rfl, by decide, rfl, ?_⟩
  decide

/-- Concrete record and PUT body for the C1 counterexample. -/
def c1Row : Row :=
  { id := "p1", firstName := "John", lastName := "Doe",
    metadata := some { createdAt := some "2024-01-01T00:00:00.000Z",
                       createdBy := some "creator",
                       updatedAt := some "2024-01-01T00:00:00.000Z",
                       updatedBy := some "creator" } }

/-- A valid PUT body that does not echo the stored metadata. -/
def c1PutBody : WriteBody :=
  { firstName := some "John", lastName := some "Doe",
    insurance := some { providerName := some "MockIns" } }

/-- C1 counterexample: for a record created at T0, a PUT whose body does
not echo `metadata` rewrites `metadata.createdAt` to the new call's
timestamp (src/index.js:1579), so PUT calls do not leave `createdAt`
equal to T0. -/
theorem audit_put_overwrites_createdAt :
    ((okOf (putPatient "2024-06-01T00:00:00.000Z" none "p1" c1PutBody [c1Row])).map
        (fun p => p.1.metadata.bind MetaObj.createdAt)) = some (some "2024-06-01T00:00:00.000Z") ∧
    ("2024-06-01T00:00:00.000Z" : String) ≠ "2024-01-01T00:00:00.000Z" := by
  constructor
  · rfl
  · decide

/-- Bulk delete only removes rows: every row of the final store was in the
initial store. -/
theorem mem_deletePatients_mem (ship : String) (keys : List String) :
    ∀ st r, r ∈ (deletePatients ship keys st).2 → r ∈ st := by
  induction keys with
  | nil => intro st r h; simpa [deletePatients] using h
  | cons k ks ih =>
    intro st r h
    have h' : r ∈ (deletePatients ship ks
        (if st.any (fun x => x.id == k) then st.filter (fun x => !(x.id == k)) else st)).2 := h
    by_cases hh : st.any (fun x => x.id == k) = true
    · rw [if_pos hh] at h'
      exact (List.mem_filter.mp (ih _ r h')).1
    · rw [if_neg hh] at h'
      exact ih _ r h'

/-- After a bulk delete, no row of the final store carries the key of any
per-key result reported as SUCCESS. -/
theorem deletePatients_success_gone (ship : String) (keys : List String) :
    ∀ st res, res ∈ (deletePatients ship keys st).1.results → res.status = "SUCCESS" →
      ∀ r ∈ (deletePatients ship keys st).2, (r.id == res.key) = false := by
  induction keys with
  | nil => intro st res h; simp [deletePatients] at h
  | cons k ks ih =>
    intro st res hres hsucc r hr
    by_cases hh : st.any (fun x => x.id == k) = true
    · have hres' : res ∈ ({ key := k, status := "SUCCESS" } : DeleteResult) ::
          (deletePatients ship ks (st.filter (fun x => !(x.id == k)))).1.results := by
        simpa [deletePatients, hh] using hres
      have hr' : r ∈ (deletePatients ship ks (st.filter (fun x => !(x.id == k)))).2 := by
        simpa [deletePatients, hh] using hr
      rcases List.mem_cons.mp hres' with he | ht
      · have hmem := mem_deletePatients_mem ship ks _ r hr'
        have hf := (List.mem_filter.mp hmem).2
        subst he
        simpa using hf
      · exact ih _ res ht hsucc r hr'
    · have hres' : res ∈ ({ key := k, status := "NOT_FOUND" } : DeleteResult) ::
          (deletePatients ship ks st).1.results := by
        simpa [deletePatients, hh] using hres
      have hr' : r ∈ (deletePatients ship ks st).2 := by
        simpa [deletePatients, hh] using hr
      rcases List.mem_cons.mp hres' with he | ht
      · subst he; simp at hsucc
      · exact ih _ res ht hsucc r hr'

/-- C9: The bulk delete, given keys of which some exist and some do not,
deletes each existing key independently and returns HTTP 200 with the
per-key result list `[{key, status: SUCCESS|NOT_FOUND}]`; the call never
fails as a whole, and every key reported SUCCESS is afterwards absent
(a subsequent get is a 404).  The endpoint itself is absent from `src/`
(only `verify_delete.js`/`verify_endpoints.js` call it) and is modelled
from spec §4.5. -/
theorem bulk_delete_partial :
    (∀ ship keys st, (deletePatients ship keys st).1.code = 200 ∧
      (deletePatients ship keys st).1.results.map DeleteResult.key = keys ∧
      (∀ res ∈ (deletePatients ship keys st).1.results, res.status = "SUCCESS" →
        (deletePatients ship keys st).2.find? (fun r => r.id == res.key) = none)) ∧
    (∀ ship keyA keyB st, keyA ≠ "" →
      st.any (fun r => r.id == keyA) = true →
      st.any (fun r => r.id == keyB) = false →
      (deletePatients ship [keyA, keyB] st).1 =
        { code := 200,
          results := [{ key := keyA, status := "SUCCESS" },
                      { key := keyB, status := "NOT_FOUND" }] } ∧
      (errOf (getPatientListItem keyA (deletePatients ship [keyA, keyB] st).2)).map ErrResp.code
          = some 404) := by
  constructor
  · intro ship keys st
    refine ⟨?_, ?_, ?_⟩
    · cases keys <;> simp [deletePatients]
    · induction keys generalizing st with
      | nil => simp [deletePatients]
      | cons k ks ih => simp [deletePatients, ih]
    · intro res hres hsucc
      rw [List.find?_eq_none]
      intro r hr
      have := deletePatients_success_gone ship keys st res hres hsucc r hr
      simp [this]
  · intro ship keyA keyB st hne hA hB
    have hB' : (st.filter (fun r => !(r.id == keyA))).any (fun r => r.id == keyB) = false := by
      rw [List.any_eq_false] at hB ⊢
      intro x hx
      exact hB x (List.mem_filter.mp hx).1
    constructor
    · simp [deletePatients, hA, hB']
    · have hfin : (deletePatients ship [keyA, keyB] st).2
          = st.filter (fun r => !(r.id == keyA)) := by
        simp [deletePatients, hA, hB']
      rw [hfin]
      have hbeq : (keyA == "") = false := by simpa using hne
      have hfind : (st.filter (fun r => !(r.id == keyA))).find? (fun r => r.id == keyA) = none := by
        rw [List.find?_eq_none]
        intro x hx
        have hf := (List.mem_filter.mp hx).2
        simp at hf
        simp [hf]
      simp [getPatientListItem, hbeq, hfind, errOf]

/-- Concrete row for the C9 witness. -/
def c9Row : Row := { id := "ka", firstName := "X", lastName := "Y" }

/-- Witness for C9: deleting `[ka, kb]` where only `ka` exists. -/
theorem bulk_delete_partial_witness :
    (deletePatients "1483051" ["ka", "kb"] [c9Row]).1 =
      { code := 200, results := [{ key := "ka", status := "SUCCESS" },
                                 { key := "kb", status := "NOT_FOUND" }] } ∧
    (errOf (getPatientListItem "ka" (deletePatients "1483051" ["ka", "kb"] [c9Row]).2)).map
        ErrResp.code = some 404 :=
  bulk_delete_partial.2 "1483051" "ka" "kb" [c9Row] (by decide) (by decide) (by decide)

/-- C5: `patchPatient` returns a 400 validation error — and therefore
applies no change (no ok result, hence no UPDATE) — whenever the PATCH
body contains zero updatable fields, or carries a `gender` outside
{MALE, FEMALE, OTHER}, or carries a `status` outside
{ACTIVE, DISCHARGED, PENDING}. -/
theorem patch_validation_rejects (now : String) (xUser : Option String) (id : String)
    (hid : id ≠ "") (b : PatchBody) (st : List Row)
    (h : patchHasFields b = false
       ∨ (∃ g, b.gender = some g ∧
            (g == some "MALE" || g == some "FEMALE" || g == some "OTHER") = false)
       ∨ (∃ s, b.status = some s ∧
            (s == some "ACTIVE" || s == some "DISCHARGED" || s == some "PENDING") = false)) :
    (errOf (patchPatient now xUser id b st)).map ErrResp.code = some 400 ∧
    ((errOf (patchPatient now xUser id b st)).map ErrResp.message).all
      (fun m => ["No updatable fields provided", "Invalid gender", "Invalid status"].contains m)
        = true ∧
    okOf (patchPatient now xUser id b st) = none := by
  have hbeq : (id == "") = false := by simpa using hid
  rcases h with h | ⟨g, hg, hbad⟩ | ⟨s, hs, hbad⟩
  · have hgen : b.gender = none := by
      cases hgb : b.gender with
      | none => rfl
      | some g => exfalso; revert h; simp [patchHasFields, hgb]
    have hst : b.status = none := by
      cases hsb : b.status with
      | none => rfl
      | some s => exfalso; revert h; simp [patchHasFields, hsb]
    simp [patchPatient, patchGenderBad, patchStatusBad, hbeq, hgen, hst, h, errOf, okOf]
  · simp [patchPatient, patchGenderBad, patchStatusBad, hbeq, hg, hbad, errOf, okOf]
  · cases hgb : b.gender with
    | none => simp [patchPatient, patchGenderBad, patchStatusBad, hbeq, hgb, hs, hbad, errOf, okOf]
    | some g =>
      by_cases hgv : (g == some "MALE" || g == some "FEMALE" || g == some "OTHER") = true
      · simp [patchPatient, patchGenderBad, patchStatusBad, hbeq, hgb, hgv, hs, hbad, errOf, okOf]
      · have hgv' : (g == some "MALE" || g == some "FEMALE" || g == some "OTHER") = false := by
          simpa using hgv
        simp [patchPatient, patchGenderBad, hbeq, hgb, hgv', errOf, okOf]

/-- A PATCH body with only an out-of-range gender. -/
def c5Body : PatchBody := { gender := some (some "X") }

/-- Witness for C5 at a concrete invalid-gender PATCH. -/
theorem patch_validation_rejects_witness :
    (errOf (patchPatient "T" none "p1" c5Body [])).map ErrResp.code = some 400 ∧
    okOf (patchPatient "T" none "p1" c5Body []) = none := by
  have h := patch_validation_rejects "T" none "p1" (by decide) c5Body []
    (Or.inr (Or.inl ⟨some "X", rfl, by decide⟩))
  exact ⟨h.1, h.2.2⟩

/-- The name+DOB conflict detail can never be mistaken for the
duplicate-id conflict detail of the later-generation create: they differ
at character 13 (`"Patient with n…"` vs `"Patient with I…"`). -/
theorem adminDup_ne_idDup (fn ln dob i : String) :
    adminDupDetails fn ln dob ≠ idDupDetails i := by
  have hL : (adminDupDetails fn ln dob).data[13]? = some 'n' := by
    show (("Patient with name " ++
      (fn ++ (" " ++ (ln ++ (" and DOB " ++ (dob ++ " already exists")))))).data)[13]?
        = some 'n'
    rw [String.data_append, List.getElem?_append_left (by decide)]
    decide
  have hR : (idDupDetails i).data[13]? = some 'I' := by
    show (("Patient with ID " ++ (i ++ " already exists")).data)[13]? = some 'I'
    rw [String.data_append, List.getElem?_append_left (by decide)]
    decide
  intro h
  rw [h, hR] at hL
  exact absurd hL (by decide)

/-- C7: the admin-shape `POST /api/v1/patients` rejects a create with a
409 `DUP_PATIENT` conflict — inserting nothing — whenever an existing
record matches the supplied `(firstName, lastName, dateOfBirth)` triple
exactly, and its conflict detail is distinct from the duplicate-id
conflict of the later-generation create. -/
theorem create_name_dob_conflict (freshId now : String) (xUser : Option String)
    (body : WriteBody) (st : List Row)
    (hfn : jsTruthyS body.firstName = true) (hln : jsTruthyS body.lastName = true)
    (hins : body.insurance.isSome = true)
    (hfmt : formatErrors body.email body.gender = [])
    (hdup : st.any (fun r =>
        r.firstName == body.firstName.getD "" && r.lastName == body.lastName.getD "" &&
          sqlEqOpt r.dateOfBirth (jsOrNone body.dateOfBirth)) = true) :
    (errOf (createPatientAdmin freshId now xUser body st)).map ErrResp.code = some 409 ∧
    (errOf (createPatientAdmin freshId now xUser body st)).bind ErrResp.errorCode
        = some "DUP_PATIENT" ∧
    (errOf (createPatientAdmin freshId now xUser body st)).bind ErrResp.details =
      some [adminDupDetails (body.firstName.getD "") (body.lastName.getD "")
              (jsStrN (jsOrNone body.dateOfBirth))] ∧
    okOf (createPatientAdmin freshId now xUser body st) = none ∧
    (∀ i, adminDupDetails (body.firstName.getD "") (body.lastName.getD "")
            (jsStrN (jsOrNone body.dateOfBirth)) ≠ idDupDetails i) := by
  have hinsN : body.insurance.isNone = false := by
    cases hi : body.insurance with
    | none => rw [hi] at hins; simp at hins
    | some v => rfl
  refine ⟨?_, ?_, ?_, ?_, fun i => adminDup_ne_idDup _ _ _ i⟩ <;>
    simp [createPatientAdmin, createAdminRow, hfn, hln, hinsN, hfmt, hdup, errOf, okOf]

/-- The store and body of the C7 witness: an existing record with the
same name and date of birth. -/
def c7Row : Row := { id := "p7", firstName := "John", lastName := "Doe",
                     dateOfBirth := some "1990-01-01" }

/-- The create body of the C7 witness. -/
def c7Body : WriteBody :=
  { firstName := some "John", lastName := some "Doe", dateOfBirth := some "1990-01-01",
    insurance := some { providerName := some "MockIns" } }

/-- Witness for C7 at a concrete duplicate create. -/
theorem create_name_dob_conflict_witness :
    (errOf (createPatientAdmin "f7" "T" none c7Body [c7Row])).map ErrResp.code = some 409 ∧
    (errOf (createPatientAdmin "f7" "T" none c7Body [c7Row])).bind ErrResp.errorCode
        = some "DUP_PATIENT" ∧
    okOf (createPatientAdmin "f7" "T" none c7Body [c7Row]) = none ∧
    adminDupDetails "John" "Doe" "1990-01-01" ≠ idDupDetails "DEL001" := by
  have h := create_name_dob_conflict "f7" "T" none c7Body [c7Row]
    (by decide) (by decide) (by decide) (by decide) (by decide)
  exact ⟨h.1, h.2.1, h.2.2.2.1, h.2.2.2.2 "DEL001"⟩

/-- `a || b` falls through when `a` is falsy. -/
theorem jsOrStr_of_falsy (a : Option String) (b : String) (h : jsTruthyS a = false) :
    jsOrStr a b = b := by
  cases a with
  | none => rfl
  | some s =>
    have hs : s = "" := by
      by_contra hne
      simp [jsTruthyS, hne] at h
    simp [jsOrStr, hs]

/-- `a || b` keeps `a` when it is truthy. -/
theorem jsOrStr_of_truthy (a : Option String) (b : String) (h : jsTruthyS a = true) :
    jsOrStr a b = a.getD "" := by
  cases a with
  | none => simp [jsTruthyS] at h
  | some s =>
    have hs : ¬ s = "" := by
      intro he
      subst he
      simp [jsTruthyS] at h
    simp [jsOrStr, hs]

/-- Truthiness of an optional string, unfolded. -/
theorem jsTruthyS_eq_true (a : Option String) :
    jsTruthyS a = true ↔ ∃ s, a = some s ∧ s ≠ "" := by
  cases a <;> simp [jsTruthyS]

/-- Appending a fresh row (no existing row shares its id) and looking it
up by id finds exactly that row. -/
theorem find?_append_self (st : List Row) (row : Row)
    (h : st.any (fun r => r.id == row.id) = false) :
    (st ++ [row]).find? (fun r => r.id == row.id) = some row := by
  induction st with
  | nil => simp [List.find?]
  | cons a t ih =>
    have hall := List.any_eq_false.mp h
    have ha : (a.id == row.id) = false := by
      have := hall a (by simp)
      simpa using this
    have ht : t.any (fun r => r.id == row.id) = false :=
      List.any_eq_false.mpr (fun x hx => hall x (by simp [hx]))
    simp [List.find?_cons, ha, ih ht]

/-- Success-case characterization of the V2 create: validation passed, no
duplicate id, and the store got exactly the normalized row appended. -/
theorem createPatientV2_ok (freshId now : String) (xUser : Option String)
    (body : CreateBodyV2) (st : List Row) (row : Row) (st' : List Row)
    (h : createPatientV2 freshId now xUser body st = .ok (row, st')) :
    row = createV2Row freshId now xUser body ∧ st' = st ++ [row] ∧
      st.any (fun r => r.id == row.id) = false ∧
      (jsTruthyS body.patientId || jsTruthyS body.id) = true := by
  unfold createPatientV2 at h
  by_cases he : (!(createV2Errors body).isEmpty) = true
  · rw [if_pos he] at h
    exact absurd h (by simp)
  · rw [if_neg he] at h
    by_cases hd : (st.any fun r => r.id == (createV2Row freshId now xUser body).id) = true
    · rw [if_pos hd] at h
      exact absurd h (by simp)
    · rw [if_neg hd] at h
      rw [Except.ok.injEq, Prod.mk.injEq] at h
      obtain ⟨h1, h2⟩ := h
      subst h1
      refine ⟨rfl, h2.symm, by simpa using hd, ?_⟩
      have hE : createV2Errors body = [] := by
        rcases hEE : createV2Errors body with _ | ⟨x, xs⟩
        · rfl
        · rw [hEE] at he
          simp at he
      by_cases hc : (!(jsTruthyS body.patientId) && !(jsTruthyS body.id)) = true
      · exfalso
        have hne : createV2Errors body ≠ [] := by
          simp [createV2Errors, hc]
        exact hne hE
      · cases hx : jsTruthyS body.patientId
        · cases hy : jsTruthyS body.id
          · rw [hx, hy] at hc
            simp at hc
          · simp [hx, hy]
        · simp [hx]

/-- C2: creating a patient with either the insurance shape
(`providerName`/`policyNumber`/`groupNumber`) or the payer shape
(`payerTypeName`/`planName`/`planId`/`groupNumber`), then reading it back
through the list-item Projector, yields a non-null `primaryPayer` whose
`displayName` equals the supplied provider name (insurance shape) or plan
name (payer shape). -/
theorem create_roundtrip_primaryPayer (freshId now : String) (xUser : Option String)
    (body : CreateBodyV2) (st : List Row) (row : Row) (st' : List Row)
    (hok : createPatientV2 freshId now xUser body st = .ok (row, st'))
    (name : String) (hname : name ≠ "")
    (hshape :
        (∃ ins, body.insurance = some ins ∧ ins.providerName = some name ∧
           jsTruthyS ins.displayName = false)
      ∨ (body.insurance = none ∧ ∃ p, body.payer = some p ∧ p.planName = some name)) :
    ((okOf (getPatientListItem row.id st')).map
        (fun item => item.primaryPayer.map PrimaryPayerOut.displayName)) = some (some name) := by
  obtain ⟨hrow, hst, hnodup, hids⟩ := createPatientV2_ok freshId now xUser body st row st' hok
  subst hst
  have hid : (row.id == "") = false := by
    rw [hrow]
    show (jsOrStr body.patientId (jsOrStr body.id freshId) == "") = false
    rcases Bool.or_eq_true_iff.mp hids with hpid | hbid
    · obtain ⟨s, hs, hsne⟩ := (jsTruthyS_eq_true _).mp hpid
      rw [jsOrStr_of_truthy _ _ hpid, hs]
      simpa using hsne
    · obtain ⟨s, hs, hsne⟩ := (jsTruthyS_eq_true _).mp hbid
      by_cases hpid : jsTruthyS body.patientId = true
      · obtain ⟨t, ht, htne⟩ := (jsTruthyS_eq_true _).mp hpid
        rw [jsOrStr_of_truthy _ _ hpid, ht]
        simpa using htne
      · have hpid' : jsTruthyS body.patientId = false := by simpa using hpid
        rw [jsOrStr_of_falsy _ _ hpid', jsOrStr_of_truthy _ _ hbid, hs]
        simpa using hsne
  have hfind := find?_append_self st row hnodup
  have hget : getPatientListItem row.id (st ++ [row]) = .ok (rowToPatientListItem row) := by
    simp [getPatientListItem, hid, hfind]
  rw [hget]
  simp only [okOf, Option.map_some]
  rcases hshape with ⟨ins, hins, hprov, hdisp⟩ | ⟨hinsN, p, hp, hplan⟩
  · have hrowIns : row.insurance = some ins := by
      rw [hrow]
      show (createV2Row freshId now xUser body).insurance = some ins
      cases hpayer : body.payer <;> simp [createV2Row, hpayer, hins]
    have hnamet : jsTruthyS (some name) = true := by
      simpa [jsTruthyS] using hname
    have hdisp2 : jsOrStr ins.displayName (jsOrStr ins.providerName "Unknown") = name := by
      rw [jsOrStr_of_falsy _ _ hdisp, hprov, jsOrStr_of_truthy _ _ hnamet]
      rfl
    simp [rowToPatientListItem, rowToPatientObj, hrowIns, hdisp2]
  · have hrowIns : row.insurance =
        some { providerName := p.planName, policyNumber := p.planId,
               groupNumber := p.groupNumber } := by
      rw [hrow]
      show (createV2Row freshId now xUser body).insurance = _
      simp [createV2Row, hp, hinsN]
    have hnamet : jsTruthyS (some name) = true := by
      simpa [jsTruthyS] using hname
    have hdisp2 : jsOrStr (none : Option String) (jsOrStr p.planName "Unknown") = name := by
      show jsOrStr p.planName "Unknown" = name
      rw [hplan, jsOrStr_of_truthy _ _ hnamet]
      rfl
    simp [rowToPatientListItem, rowToPatientObj, hrowIns, hdisp2]

/-- The create body of the C2 witness (insurance shape, from the spec's
test scenario). -/
def c2Body : CreateBodyV2 :=
  { patientId := some "p2", firstName := some "Test", lastName := some "Patient",
    insurance := some { providerName := some "MockIns", policyNumber := some "P123" } }

/-- Witness for C2 at a concrete insurance-shape create. -/
theorem create_roundtrip_primaryPayer_witness :
    ((okOf (getPatientListItem (createV2Row "f2" "T" none c2Body).id
        ([] ++ [createV2Row "f2" "T" none c2Body]))).map
      (fun item => item.primaryPayer.map PrimaryPayerOut.displayName)) = some (some "MockIns") :=
  create_roundtrip_primaryPayer "f2" "T" none c2Body [] _ _ rfl "MockIns" (by decide)
    (Or.inl ⟨_, rfl, rfl, rfl⟩)

/-- The PATCH UPDATE never touches the primary key. -/
theorem patchApply_id (b : PatchBody) (mm : MetaObj) (r : Row) :
    (patchApply b mm r).id = r.id := rfl

/-- `Option.all` on a present value. -/
theorem optAllSome {α : Type} (p : α → Bool) (x : α) : Option.all p (some x) = p x := rfl

/-- Success-case characterization of the PATCH handler: the target row was
found and the new store maps only id-matching rows through the UPDATE. -/
theorem patchPatient_ok_elim (now : String) (xUser : Option String) (id : String)
    (b : PatchBody) (st : List Row) (row : Row) (st' : List Row)
    (h : patchPatient now xUser id b st = .ok (row, st')) :
    ∃ r0, st.find? (fun r => r.id == id) = some r0 ∧
      row = patchApply b (patchMergedMeta now (jsOrStr xUser "system") r0) r0 ∧
      st' = st.map (fun r =>
        if r.id == id then patchApply b (patchMergedMeta now (jsOrStr xUser "system") r0) r
        else r) := by
  unfold patchPatient at h
  split at h
  · exact absurd h (by simp)
  · split at h
    · exact absurd h (by simp)
    · split at h
      · exact absurd h (by simp)
      · split at h
        · exact absurd h (by simp)
        · split at h
          · exact absurd h (by simp)
          · next r0 hf =>
            unfold patchFound at h
            split at h
            · exact absurd h (by simp)
            · rw [Except.ok.injEq, Prod.mk.injEq] at h
              exact ⟨r0, hf, h.1.symm, h.2.symm⟩

/-- Success-case characterization of the PUT handler. -/
theorem putPatient_ok_elim (now : String) (xUser : Option String) (id : String)
    (body : WriteBody) (st : List Row) (row : Row) (st' : List Row)
    (h : putPatient now xUser id body st = .ok (row, st')) :
    row = putRow now xUser id body ∧
      st' = st.map (fun r => if r.id == id then putRow now xUser id body else r) := by
  unfold putPatient at h
  split at h
  · exact absurd h (by simp)
  · split at h
    · exact absurd h (by simp)
    · split at h
      · exact absurd h (by simp)
      · rw [Except.ok.injEq, Prod.mk.injEq] at h
        exact ⟨h.1.symm, h.2.symm⟩

/-- Every row of the store with the given id carries a metadata object
whose `createdAt`/`createdBy` equal the creation stamp. -/
def createdStableB (pid t0 c0 : String) (st : List Row) : Bool :=
  st.all (fun r => !(r.id == pid) ||
    (match r.metadata with
     | some m => m.createdAt == some t0 && m.createdBy == some c0
     | none => false))

/-- Every row of the store with the given id carries a metadata object
whose `updatedAt`/`updatedBy` equal the given refresh stamp. -/
def updatedStampB (id now ub : String) (st : List Row) : Bool :=
  st.all (fun r => !(r.id == id) ||
    (match r.metadata with
     | some m => m.updatedAt == some now && m.updatedBy == some ub
     | none => false))

/-- Every row of the store with the given id carries exactly the metadata
a PUT builds from the request body (audit fields from `body.metadata`,
falling back to the new stamp). -/
def putMetaStampB (id now ub : String) (b : WriteBody) (st : List Row) : Bool :=
  st.all (fun r => !(r.id == id) ||
    r.metadata == some { createdAt := some (jsOrStr (b.metadata.bind MetaObj.createdAt) now)
                         createdBy := some (jsOrStr (b.metadata.bind MetaObj.createdBy) ub)
                         updatedAt := some now
                         updatedBy := some ub })

/-- C1 (amended): for a record stamped at creation with a non-empty
`createdAt`/`createdBy`, (1) any sequence of PATCH calls — succeeding or
failing — preserves `metadata.createdAt`/`createdBy` for every row with
that id; (2) every successful PATCH refreshes `updatedAt` to the call's
clock value and `updatedBy` to the caller identity (so under a
non-decreasing clock `updatedAt` never decreases); (3) a PUT rebuilds the
metadata from the *request body*: `createdAt`/`createdBy` are taken from
`body.metadata` when truthy and otherwise set to the new stamp — so a PUT
preserves the original creation stamp only when the client echoes it. -/
theorem audit_metadata_amended (pid t0 c0 : String) (ht0 : t0 ≠ "") (hc0 : c0 ≠ "") :
    (∀ st cs, createdStableB pid t0 c0 st = true →
       createdStableB pid t0 c0 (patchSeq st cs) = true) ∧
    (∀ now xUser id b st,
       ((okOf (patchPatient now xUser id b st)).map Prod.snd).all
         (updatedStampB id now (jsOrStr xUser "system")) = true) ∧
    (∀ now xUser id body st,
       ((okOf (putPatient now xUser id body st)).map Prod.snd).all
         (putMetaStampB id now (jsOrStr xUser "system") body) = true) := by
  have ht0' : jsTruthyS (some t0) = true := by simpa [jsTruthyS] using ht0
  have hc0' : jsTruthyS (some c0) = true := by simpa [jsTruthyS] using hc0
  refine ⟨?_, ?_, ?_⟩
  · have hstep : ∀ st c, createdStableB pid t0 c0 st = true →
        createdStableB pid t0 c0 (patchStep st c) = true := by
      intro st c hstable
      unfold patchStep
      cases hp : patchPatient c.now c.xUser c.id c.body st with
      | error e => exact hstable
      | ok pr =>
        obtain ⟨row, st2⟩ := pr
        obtain ⟨r0, hf, hrow, hst2⟩ :=
          patchPatient_ok_elim c.now c.xUser c.id c.body st row st2 hp
        subst hst2
        unfold createdStableB
        rw [List.all_eq_true]
        intro x hx
        rw [List.mem_map] at hx
        obtain ⟨r, hr, hxr⟩ := hx
        subst hxr
        have hstable' := List.all_eq_true.mp hstable
        by_cases hrid : (r.id == c.id) = true
        · rw [if_pos hrid]
          by_cases hpid2 : (r.id == pid) = true
          · have h1 : r.id = c.id := by simpa using hrid
            have h2 : r.id = pid := by simpa using hpid2
            have hr0c : r0.id = c.id := by
              have := List.find?_some hf
              simpa using this
            have hr0pid : (r0.id == pid) = true := by
              rw [hr0c, ← h1, h2]
              simp
            have hmem := List.mem_of_find?_eq_some hf
            have hst0 := hstable' r0 hmem
            rw [hr0pid] at hst0
            simp only [Bool.not_true, Bool.false_or] at hst0
            cases hm : r0.metadata with
            | none => rw [hm] at hst0; simp at hst0
            | some m =>
              rw [hm] at hst0
              simp only [Bool.and_eq_true, beq_iff_eq] at hst0
              obtain ⟨hca, hcb⟩ := hst0
              have hmm : (patchMergedMeta c.now (jsOrStr c.xUser "system") r0).createdAt
                  = some t0 ∧
                  (patchMergedMeta c.now (jsOrStr c.xUser "system") r0).createdBy = some c0 := by
                unfold patchMergedMeta
                rw [hm]
                constructor
                · show some (jsOrStr m.createdAt c.now) = some t0
                  rw [hca, jsOrStr_of_truthy _ _ ht0']
                  rfl
                · show some (jsOrStr m.createdBy (jsOrStr c.xUser "system")) = some c0
                  rw [hcb, jsOrStr_of_truthy _ _ hc0']
                  rfl
              have hid2 : (patchApply c.body
                  (patchMergedMeta c.now (jsOrStr c.xUser "system") r0) r).id = r.id :=
                patchApply_id _ _ _
              rw [Bool.or_eq_true]
              right
              have : (patchApply c.body (patchMergedMeta c.now (jsOrStr c.xUser "system") r0)
                  r).metadata = some (patchMergedMeta c.now (jsOrStr c.xUser "system") r0) := rfl
              rw [this]
              simp [hmm.1, hmm.2]
          · rw [Bool.or_eq_true]
            left
            have : (patchApply c.body (patchMergedMeta c.now (jsOrStr c.xUser "system") r0)
                r).id = r.id := patchApply_id _ _ _
            rw [this]
            simpa using hpid2
        · rw [if_neg hrid]
          exact hstable' r hr
    intro st cs h
    induction cs generalizing st with
    | nil => simpa [patchSeq] using h
    | cons c cs ih =>
      show createdStableB pid t0 c0 (patchSeq (patchStep st c) cs) = true
      exact ih _ (hstep st c h)
  · intro now xUser id b st
    cases hp : patchPatient now xUser id b st with
    | error e => simp [okOf]
    | ok pr =>
      obtain ⟨row, st2⟩ := pr
      obtain ⟨r0, hf, hrow, hst2⟩ := patchPatient_ok_elim now xUser id b st row st2 hp
      subst hst2
      show updatedStampB id now (jsOrStr xUser "system")
        (st.map (fun r =>
          if r.id == id then patchApply b (patchMergedMeta now (jsOrStr xUser "system") r0) r
          else r)) = true
      unfold updatedStampB
      rw [List.all_eq_true]
      intro x hx
      rw [List.mem_map] at hx
      obtain ⟨r, hr, hxr⟩ := hx
      subst hxr
      by_cases hrid : (r.id == id) = true
      · rw [if_pos hrid, Bool.or_eq_true]
        right
        have : (patchApply b (patchMergedMeta now (jsOrStr xUser "system") r0) r).metadata
            = some (patchMergedMeta now (jsOrStr xUser "system") r0) := rfl
        rw [this]
        simp [patchMergedMeta]
      · rw [if_neg hrid, Bool.or_eq_true]
        left
        simpa using hrid
  · intro now xUser id body st
    cases hp : putPatient now xUser id body st with
    | error e => simp [okOf]
    | ok pr =>
      obtain ⟨row, st2⟩ := pr
      obtain ⟨hrow, hst2⟩ := putPatient_ok_elim now xUser id body st row st2 hp
      subst hst2
      show putMetaStampB id now (jsOrStr xUser "system") body
        (st.map (fun r => if r.id == id then putRow now xUser id body else r)) = true
      unfold putMetaStampB
      rw [List.all_eq_true]
      intro x hx
      rw [List.mem_map] at hx
      obtain ⟨r, hr, hxr⟩ := hx
      subst hxr
      by_cases hrid : (r.id == id) = true
      · rw [if_pos hrid, Bool.or_eq_true]
        right
        have : (putRow now xUser id body).metadata
            = some { createdAt := some (jsOrStr (body.metadata.bind MetaObj.createdAt) now)
                     createdBy := some (jsOrStr (body.metadata.bind MetaObj.createdBy)
                                          (jsOrStr xUser "system"))
                     updatedAt := some now
                     updatedBy := some (jsOrStr xUser "system") } := rfl
        rw [this]
        simp
      · rw [if_neg hrid, Bool.or_eq_true]
        left
        simpa using hrid

/-- Witness for the amended C1: a concrete record created at `T0`, one
concrete successful PATCH preserving the creation stamp and refreshing
the update stamp, and a concrete PUT taking its audit fields from the
body. -/
theorem audit_metadata_amended_witness :
    createdStableB "p1" "2024-01-01T00:00:00.000Z" "creator"
      (patchSeq [c1Row] [{ now := "2024-03-01T00:00:00.000Z", xUser := some "u2", id := "p1",
                           body := { isPinned := some true } }]) = true ∧
    ((okOf (patchPatient "2024-03-01T00:00:00.000Z" (some "u2") "p1"
        { isPinned := some true } [c1Row])).map Prod.snd).all
      (updatedStampB "p1" "2024-03-01T00:00:00.000Z" (jsOrStr (some "u2") "system")) = true ∧
    ((okOf (putPatient "2024-06-01T00:00:00.000Z" none "p1" c1PutBody [c1Row])).map
        Prod.snd).all
      (putMetaStampB "p1" "2024-06-01T00:00:00.000Z" (jsOrStr none "system") c1PutBody)
        = true := by
  have h := audit_metadata_amended "p1" "2024-01-01T00:00:00.000Z" "creator"
    (by decide) (by decide)
  exact ⟨h.1 [c1Row] _ (by decide),
         h.2.1 "2024-03-01T00:00:00.000Z" (some "u2") "p1" { isPinned := some true } [c1Row],
         h.2.2 "2024-06-01T00:00:00.000Z" none "p1" c1PutBody [c1Row]⟩

/-- Success-case construction of the PATCH handler: with valid enums, at
least one present field, a found row, and no explicit `null` on the
NOT NULL columns, the handler performs exactly the presence-driven
UPDATE. -/
theorem patchPatient_eq_ok (now : String) (xUser : Option String) (id : String)
    (b : PatchBody) (st : List Row) (r0 : Row)
    (hid : (id == "") = false)
    (hgen : patchGenderBad b = false)
    (hsta : patchStatusBad b = false)
    (hfields : patchHasFields b = true)
    (hfind : st.find? (fun r => r.id == id) = some r0)
    (hfn : (b.firstName == some none) = false)
    (hln : (b.lastName == some none) = false) :
    patchPatient now xUser id b st =
      .ok (patchApply b (patchMergedMeta now (jsOrStr xUser "system") r0) r0,
           st.map (fun r =>
             if r.id == id then patchApply b (patchMergedMeta now (jsOrStr xUser "system") r0) r
             else r)) := by
  unfold patchPatient
  rw [if_neg (by simp [hid]), if_neg (by simp [hgen]), if_neg (by simp [hsta]),
      if_neg (by simp [hfields]), hfind]
  show patchFound now xUser id b r0 st = _
  unfold patchFound
  rw [if_neg (by simp [hfn, hln])]

/-- A stored record for the C6 counterexample. -/
def c6Row : Row :=
  { id := "p6", firstName := "Jane", lastName := "Roe", isPinned := true,
    insurance := some { providerName := some "Aetna" } }

/-- A PATCH body carrying an explicit `firstName: null` together with
`isPinned: false`. -/
def c6NullBody : PatchBody := { firstName := some none, isPinned := some false }

/-- C6 counterexample: the claim says every field key present in a PATCH
body is applied, an explicit `null` included; but supplying
`firstName: null` hits the `TEXT NOT NULL` column constraint, the whole
UPDATE fails with a 500 store error, and nothing — not even the
simultaneously supplied `isPinned: false` — is written. -/
theorem patch_null_firstName_fails :
    (errOf (patchPatient "T6" none "p6" c6NullBody [c6Row])).map ErrResp.code = some 500 ∧
    okOf (patchPatient "T6" none "p6" c6NullBody [c6Row]) = none := by
  constructor
  · rfl
  · rfl

/-- C6 (amended): presence rather than truthiness determines whether a
PATCH field is applied — for every field key present in the body the
supplied value is written, an explicit `null` (clearing the column) or
`false` included, while absent keys leave their fields untouched — except
that an explicit `null` for the NOT NULL columns `firstName`/`lastName`
makes the whole UPDATE fail with a 500 store error, applying nothing. -/
theorem patch_presence_semantics_amended :
    (∀ now (xUser : Option String) (id : String) (b : PatchBody) (st : List Row) (r0 : Row),
      (id == "") = false → patchGenderBad b = false → patchStatusBad b = false →
      patchHasFields b = true → st.find? (fun r => r.id == id) = some r0 →
      (b.firstName == some none) = false → (b.lastName == some none) = false →
      (let res := (okOf (patchPatient now xUser id b st)).map Prod.fst
       res.map (fun r => some r.firstName) = some (b.firstName.getD (some r0.firstName)) ∧
       res.map (fun r => some r.lastName) = some (b.lastName.getD (some r0.lastName)) ∧
       res.map Row.dateOfBirth = some (b.dateOfBirth.getD r0.dateOfBirth) ∧
       res.map Row.gender = some (b.gender.getD r0.gender) ∧
       res.map Row.phone = some (b.phone.getD r0.phone) ∧
       res.map Row.email = some (b.email.getD r0.email) ∧
       res.map Row.address = some (b.address.getD r0.address) ∧
       res.map Row.roomNumber = some (b.roomNumber.getD r0.roomNumber) ∧
       res.map Row.bedNumber = some (b.bedNumber.getD r0.bedNumber) ∧
       res.map Row.admissionDate = some (b.admissionDate.getD r0.admissionDate) ∧
       res.map Row.dischargeDate = some (b.dischargeDate.getD r0.dischargeDate) ∧
       res.map Row.primaryPhysician = some (b.primaryPhysician.getD r0.primaryPhysician) ∧
       res.map Row.payer = some (b.payer.getD r0.payer) ∧
       res.map Row.insurance = some (b.insurance.getD r0.insurance) ∧
       res.map Row.diagnosisCodes = some (b.diagnosisCodes.getD r0.diagnosisCodes) ∧
       res.map Row.status = some (b.status.getD r0.status) ∧
       res.map Row.isPinned = some (b.isPinned.getD r0.isPinned) ∧
       res.map Row.team = some (b.team.getD r0.team) ∧
       res.map Row.agency = some (b.agency.getD r0.agency) ∧
       res.map Row.lastOrder = some (b.lastOrder.getD r0.lastOrder))) ∧
    (∀ now (xUser : Option String) (id : String) (b : PatchBody) (st : List Row) (r0 : Row),
      (id == "") = false → patchGenderBad b = false → patchStatusBad b = false →
      st.find? (fun r => r.id == id) = some r0 →
      (b.firstName == some none) = true →
      (errOf (patchPatient now xUser id b st)).map ErrResp.code = some 500 ∧
        okOf (patchPatient now xUser id b st) = none) := by
  constructor
  · intro now xUser id b st r0 hid hgen hsta hfields hfind hfn hln
    rw [patchPatient_eq_ok now xUser id b st r0 hid hgen hsta hfields hfind hfn hln]
    refine ⟨?_, ?_, rfl, rfl, rfl, rfl, rfl, rfl, rfl, rfl, rfl, rfl, rfl, rfl, rfl, rfl,
      rfl, rfl, rfl, rfl⟩
    · cases hbf : b.firstName with
      | none => simp [okOf, patchApply, hbf]
      | some v =>
        cases v with
        | none => rw [hbf] at hfn; simp at hfn
        | some s => simp [okOf, patchApply, hbf]
    · cases hbl : b.lastName with
      | none => simp [okOf, patchApply, hbl]
      | some v =>
        cases v with
        | none => rw [hbl] at hln; simp at hln
        | some s => simp [okOf, patchApply, hbl]
  · intro now xUser id b st r0 hid hgen hsta hfind hfn
    have hfirst : b.firstName = some none := by simpa using hfn
    have hfields : patchHasFields b = true := by simp [patchHasFields, hfirst]
    have hres : patchPatient now xUser id b st =
        .error { code := 500,
                 message := "SQLITE_CONSTRAINT: NOT NULL constraint failed: patients" } := by
      unfold patchPatient
      rw [if_neg (by simp [hid]), if_neg (by simp [hgen]), if_neg (by simp [hsta]),
          if_neg (by simp [hfields]), hfind]
      show patchFound now xUser id b r0 st = _
      unfold patchFound
      rw [if_pos (by simp [hfn])]
    rw [hres]
    exact ⟨rfl, rfl⟩

/-- The PATCH body of the C6 witness: explicit `isPinned: false` and
`insurance: null`. -/
def c6Body : PatchBody := { isPinned := some false, insurance := some none }

/-- Witness for the amended C6 at a concrete PATCH: `isPinned: false` is
written, `insurance: null` clears the column, the absent `lastName` key
is untouched, and the explicit-null `firstName` case 500s. -/
theorem patch_presence_semantics_amended_witness :
    (((okOf (patchPatient "T6" none "p6" c6Body [c6Row])).map Prod.fst).map Row.isPinned
        = some (c6Body.isPinned.getD c6Row.isPinned)) ∧
    (((okOf (patchPatient "T6" none "p6" c6Body [c6Row])).map Prod.fst).map Row.insurance
        = some (c6Body.insurance.getD c6Row.insurance)) ∧
    (((okOf (patchPatient "T6" none "p6" c6Body [c6Row])).map Prod.fst).map
        (fun r => some r.lastName) = some (c6Body.lastName.getD (some c6Row.lastName))) ∧
    (errOf (patchPatient "T6" none "p6" c6NullBody [c6Row])).map ErrResp.code = some 500 := by
  have hA := patch_presence_semantics_amended.1 "T6" none "p6" c6Body [c6Row] c6Row
    (by decide) (by decide) (by decide) (by decide) (by decide) (by decide) (by decide)
  have hB := patch_presence_semantics_amended.2 "T6" none "p6" c6NullBody [c6Row] c6Row
    (by decide) (by decide) (by decide) (by decide) (by decide)
  exact ⟨hA.2.2.2.2.2.2.2.2.2.2.2.2.2.2.2.2.1,
         hA.2.2.2.2.2.2.2.2.2.2.2.2.2.1,
         hA.2.1, hB.1⟩

/-- Head and tail facts from a separator-free cons list. -/
theorem contains_cons_false {c x : Char} {xs : List Char}
    (h : (x :: xs).contains c = false) : ¬ x = c ∧ xs.contains c = false := by
  constructor
  · intro he
    subst he
    simp at h
  · cases hc : xs.contains c
    · rfl
    · exfalso
      have ht : (x :: xs).contains c = true := by
        rw [List.contains_cons, hc, Bool.or_true]
      rw [ht] at h
      cases h

/-- Splitting a separator-free list yields the list itself. -/
theorem charSplit_no (c : Char) (l : List Char) (h : l.contains c = false) :
    charSplit c l = [l] := by
  induction l with
  | nil => rfl
  | cons x xs ih =>
    obtain ⟨hx, hxs⟩ := contains_cons_false h
    simp only [charSplit]
    rw [if_neg hx, ih hxs]

/-- Splitting at the first separator occurrence peels off the
separator-free head. -/
theorem charSplit_append (c : Char) (l rest : List Char) (h : l.contains c = false) :
    charSplit c (l ++ c :: rest) = l :: charSplit c rest := by
  induction l with
  | nil =>
    simp [charSplit]
  | cons x xs ih =>
    obtain ⟨hx, hxs⟩ := contains_cons_false h
    simp only [List.cons_append, charSplit]
    rw [if_neg hx, List.append_eq, ih hxs]

/-- C8 (amended): only the legacy Projector `rowToPatientLegacy` reformats
dates, and only as follows: `dob` is rewritten from `Y-M-D` to `M/D/Y`
when it contains `'-'`, splits into exactly three parts and the first part
has four characters, and is passed through unchanged when it contains no
`'-'`; the lastOrder `date` is rewritten whenever it contains `'-'`
(three-part values become `M/D/Y`) and passed through unchanged otherwise.
The search Projector `rowToPatientSearch` passes both `dob` and
`lastOrder` through unchanged. -/
theorem date_reformat_amended :
    (∀ r : Row, (rowToPatientSearch r).dob = r.dateOfBirth ∧
       (rowToPatientSearch r).lastOrder = r.lastOrder) ∧
    (∀ y m d : String,
       y.data.contains '-' = false → m.data.contains '-' = false →
       d.data.contains '-' = false → y.data.length = 4 →
       legacyFormatDob (some (y ++ ("-" ++ (m ++ ("-" ++ d)))))
         = some (m ++ "/" ++ d ++ "/" ++ y)) ∧
    (∀ s : String, s.data.contains '-' = false → legacyFormatDob (some s) = some s) ∧
    (∀ (o : OrderObj) (y m d : String),
       y.data.contains '-' = false → m.data.contains '-' = false →
       d.data.contains '-' = false →
       o.date = some (y ++ ("-" ++ (m ++ ("-" ++ d)))) →
       legacyLastOrder (some o) = some { o with date := some (m ++ "/" ++ d ++ "/" ++ y) }) ∧
    (∀ o : OrderObj, (o.date.getD "").data.contains '-' = false →
       legacyLastOrder (some o) = some o) := by
  have hdata : ∀ y m d : String,
      (y ++ ("-" ++ (m ++ ("-" ++ d)))).data = y.data ++ '-' :: (m.data ++ '-' :: d.data) := by
    intro y m d
    simp [String.data_append]
  have hsplit : ∀ y m d : String,
      y.data.contains '-' = false → m.data.contains '-' = false →
      d.data.contains '-' = false →
      splitDashStr (y ++ ("-" ++ (m ++ ("-" ++ d)))) = [y, m, d] := by
    intro y m d hy hm hd
    unfold splitDashStr
    rw [hdata, charSplit_append _ _ _ hy, charSplit_append _ _ _ hm, charSplit_no _ _ hd]
    rfl
  have hne : ∀ y m d : String, ((y ++ ("-" ++ (m ++ ("-" ++ d)))) == "") = false := by
    intro y m d
    cases hbe : ((y ++ ("-" ++ (m ++ ("-" ++ d)))) == "")
    · rfl
    · exfalso
      have heq : (y ++ ("-" ++ (m ++ ("-" ++ d)))) = "" := by simpa using hbe
      have hd2 := congrArg String.data heq
      rw [hdata] at hd2
      simp at hd2
  have hdash : ∀ y m d : String,
      hasDashStr (y ++ ("-" ++ (m ++ ("-" ++ d)))) = true := by
    intro y m d
    unfold hasDashStr
    rw [hdata]
    simp
  refine ⟨fun r => ⟨rfl, rfl⟩, ?_, ?_, ?_, ?_⟩
  · intro y m d hy hm hd hy4
    simp only [legacyFormatDob]
    rw [if_neg (by simp [hne y m d]), if_pos (by simp [hdash y m d]), hsplit y m d hy hm hd]
    rw [if_pos (by simp [hy4])]
    rfl
  · intro s h
    simp only [legacyFormatDob]
    by_cases hse : (s == "") = true
    · rw [if_pos hse]
    · rw [if_neg hse, if_neg (by unfold hasDashStr; rw [h]; simp)]
  · intro o y m d hy hm hd hdate
    have htr : jsTruthyS o.date = true := by
      rw [hdate]
      simp only [jsTruthyS]
      have := hne y m d
      simp [this]
    simp only [legacyLastOrder]
    rw [if_pos (by rw [htr, hdate]; simp [hdash y m d])]
    rw [hdate]
    simp only [Option.getD_some]
    rw [hsplit y m d hy hm hd]
    rfl
  · intro o h
    simp only [legacyLastOrder]
    cases hd : o.date with
    | none => rw [if_neg (by simp [hd, jsTruthyS])]
    | some s =>
      rw [hd] at h
      have h2 : s.data.contains '-' = false := by simpa using h
      rw [if_neg (by unfold hasDashStr; simp only [Option.getD_some]; rw [h2]; simp)]

/-- Witness for the amended C8 at concrete dates. -/
theorem date_reformat_amended_witness :
    (rowToPatientSearch c8Row).dob = c8Row.dateOfBirth ∧
    legacyFormatDob (some ("2000" ++ ("-" ++ ("01" ++ ("-" ++ "02")))))
      = some ("01" ++ "/" ++ "02" ++ "/" ++ "2000") ∧
    legacyFormatDob (some "10/10/2023") = some "10/10/2023" ∧
    legacyLastOrder (some { date := some "notadate" }) = some { date := some "notadate" } := by
  refine ⟨(date_reformat_amended.1 c8Row).1, ?_, ?_, ?_⟩
  · exact date_reformat_amended.2.1 "2000" "01" "02" (by decide) (by decide) (by decide)
      (by decide)
  · exact date_reformat_amended.2.2.1 "10/10/2023" (by decide)
  · exact date_reformat_amended.2.2.2.2 { date := some "notadate" } (by decide)

/-- Characterization of `Math.ceil(t / p)` for `p ≥ 1`: the value
`(t + p - 1) / p` is the least page count covering `t` records. -/
theorem ceil_bounds (t p : Nat) (hp : 1 ≤ p) (ht : 1 ≤ t) :
    p * ((t + p - 1) / p - 1) < t ∧ t ≤ p * ((t + p - 1) / p) := by
  have h1 := Nat.div_add_mod (t + p - 1) p
  have h2 := Nat.mod_lt (t + p - 1) (y := p) hp
  rcases hc : (t + p - 1) / p with _ | c
  · exfalso
    rw [hc, Nat.mul_zero] at h1
    omega
  · rw [hc] at h1
    have hmul : p * (c + 1) = p * c + p := by ring
    rw [hmul] at h1
    constructor
    · have : c + 1 - 1 = c := by omega
      rw [this]
      omega
    · rw [hmul]
      omega

/-- Success-case characterization of the search handler. -/
theorem searchPatientsV1_ok_elim (auth pingAuth soldToQ qQ : Option String)
    (pageNoQ pageSizeQ : Option (Option Int)) (sortByQ sortMethodQ : Option String)
    (st : List Row) (resp : SearchRespV1)
    (h : searchPatientsV1 auth pingAuth soldToQ qQ pageNoQ pageSizeQ sortByQ sortMethodQ st
        = .ok resp) :
    resp = searchExec qQ pageNoQ pageSizeQ sortByQ sortMethodQ st := by
  unfold searchPatientsV1 at h
  split at h
  · exact absurd h (by simp)
  · split at h
    · exact absurd h (by simp)
    · split at h
      · exact absurd h (by simp)
      · rw [Except.ok.injEq] at h
        exact h.symm

/-- C3: for every list/search request, the response's `pagesCount` equals
`ceil(totalRecords / pageSize)` where `totalRecords` is counted with the
identical filter predicate as the page scan; in particular, on an empty
dataset the response has `totalRecords = 0`, `pagesCount = 0` and an
empty item list. -/
theorem pagination_pagesCount_consistent :
    (∀ (qQ : Option String) (pageNoQ pageSizeQ : Option (Option Int))
       (sortByQ sortMethodQ pinQ : Option String) (st : List Row),
      let resp := listPatientsV1 qQ pageNoQ pageSizeQ sortByQ sortMethodQ pinQ st
      resp.totalRecords = (st.filter (listPred (trimStr (jsOrStr qQ "")) pinQ)).length ∧
      1 ≤ resp.curentPageSize ∧
      (resp.totalRecords = 0 → resp.pagesCount = 0 ∧ resp.data = []) ∧
      (1 ≤ resp.totalRecords →
        resp.curentPageSize * (resp.pagesCount - 1) < resp.totalRecords ∧
        resp.totalRecords ≤ resp.curentPageSize * resp.pagesCount)) ∧
    (∀ (auth pingAuth soldToQ qQ : Option String)
       (pageNoQ pageSizeQ : Option (Option Int)) (sortByQ sortMethodQ : Option String)
       (st : List Row) (resp : SearchRespV1),
      searchPatientsV1 auth pingAuth soldToQ qQ pageNoQ pageSizeQ sortByQ sortMethodQ st
          = .ok resp →
      resp.totalRecords = (st.filter (searchPred (trimStr (jsOrStr qQ "")))).length ∧
      (resp.totalRecords = 0 → resp.pagesCount = 0 ∧ resp.patients = []) ∧
      (1 ≤ resp.totalRecords →
        (max 1 (min 100 (jsNumOrD pageSizeQ 25))).toNat * (resp.pagesCount - 1)
            < resp.totalRecords ∧
        resp.totalRecords
            ≤ (max 1 (min 100 (jsNumOrD pageSizeQ 25))).toNat * resp.pagesCount)) ∧
    (listPatientsV1 none (some (some 1)) (some (some 25)) none none none [] =
      { data := [], totalRecords := 0, pageNo := 1, curentPageSize := 25, pagesCount := 0 }) := by
  have hploc : ∀ pageSizeQ : Option (Option Int),
      1 ≤ (max 1 (min 100 (jsNumOrD pageSizeQ 25))).toNat := by
    intro pageSizeQ
    omega
  refine ⟨?_, ?_, by rfl⟩
  · intro qQ pageNoQ pageSizeQ sortByQ sortMethodQ pinQ st
    refine ⟨rfl, hploc pageSizeQ, ?_, ?_⟩
    · intro h0
      have h0' : (st.filter (listPred (trimStr (jsOrStr qQ "")) pinQ)).length = 0 := h0
      have hnil : st.filter (listPred (trimStr (jsOrStr qQ "")) pinQ) = [] :=
        List.length_eq_zero.mp h0'
      constructor
      · show ((st.filter (listPred (trimStr (jsOrStr qQ "")) pinQ)).length
            + (max 1 (min 100 (jsNumOrD pageSizeQ 25))).toNat - 1)
            / (max 1 (min 100 (jsNumOrD pageSizeQ 25))).toNat = 0
        rw [h0']
        apply Nat.div_eq_of_lt
        have := hploc pageSizeQ
        omega
      · show (((orderRows (rowLe (lenientSortColumn sortByQ)
            ((lenientSortMethod sortMethodQ) == "DESC"))
            (st.filter (listPred (trimStr (jsOrStr qQ "")) pinQ))).drop
              (((max 1 (jsNumOrD pageNoQ 1)).toNat - 1)
                * (max 1 (min 100 (jsNumOrD pageSizeQ 25))).toNat)).take
              (max 1 (min 100 (jsNumOrD pageSizeQ 25))).toNat).map rowToPatientObj = []
        rw [hnil]
        simp [orderRows]
    · intro h1
      exact ceil_bounds _ _ (hploc pageSizeQ) h1
  · intro auth pingAuth soldToQ qQ pageNoQ pageSizeQ sortByQ sortMethodQ st resp hok
    have hresp := searchPatientsV1_ok_elim auth pingAuth soldToQ qQ pageNoQ pageSizeQ
      sortByQ sortMethodQ st resp hok
    subst hresp
    refine ⟨rfl, ?_, ?_⟩
    · intro h0
      have h0' : (st.filter (searchPred (trimStr (jsOrStr qQ "")))).length = 0 := h0
      have hnil : st.filter (searchPred (trimStr (jsOrStr qQ ""))) = [] :=
        List.length_eq_zero.mp h0'
      constructor
      · show ((st.filter (searchPred (trimStr (jsOrStr qQ "")))).length
            + (max 1 (min 100 (jsNumOrD pageSizeQ 25))).toNat - 1)
            / (max 1 (min 100 (jsNumOrD pageSizeQ 25))).toNat = 0
        rw [h0']
        apply Nat.div_eq_of_lt
        have := hploc pageSizeQ
        omega
      · show (((orderRows _ (st.filter (searchPred (trimStr (jsOrStr qQ ""))))).drop
              _).take _).map rowToPatientSearch = []
        rw [hnil]
        simp [orderRows]
    · intro h1
      exact ceil_bounds _ _ (hploc pageSizeQ) h1

/-- A concrete row for the C3 witness. -/
def c3Row : Row := { id := "p3", firstName := "Amy", lastName := "Lee" }

/-- Witness for C3: the empty-dataset scenario, a one-row list response,
and a successful search on the empty store. -/
theorem pagination_pagesCount_consistent_witness :
    (listPatientsV1 none (some (some 1)) (some (some 25)) none none none [] =
      { data := [], totalRecords := 0, pageNo := 1, curentPageSize := 25, pagesCount := 0 }) ∧
    ((listPatientsV1 none none none none none none [c3Row]).totalRecords
        = ([c3Row].filter (listPred (trimStr (jsOrStr none "")) none)).length ∧
      (listPatientsV1 none none none none none none [c3Row]).curentPageSize
          * ((listPatientsV1 none none none none none none [c3Row]).pagesCount - 1)
        < (listPatientsV1 none none none none none none [c3Row]).totalRecords) ∧
    ((searchExec none none none none none []).totalRecords = 0 ∧
      (searchExec none none none none none []).pagesCount = 0 ∧
      (searchExec none none none none none []).patients = []) := by
  refine ⟨pagination_pagesCount_consistent.2.2, ⟨?_, ?_⟩, ?_⟩
  · exact (pagination_pagesCount_consistent.1 none none none none none none [c3Row]).1
  · exact ((pagination_pagesCount_consistent.1 none none none none none none [c3Row]).2.2.2
      (by decide)).1
  · have h := pagination_pagesCount_consistent.2.1 (some "t") (some "p") (some "1483051")
      none none none none none []
      (searchExec none none none none none []) rfl
    exact ⟨h.1, (h.2.1 h.1).1, (h.2.1 h.1).2⟩

end PatientApi
